import Mathlib

/-!
# script.js : virtual-particle background and site interactions

A shallow embedding of `src/script.js`.

Conventions of the embedding.

* JavaScript numbers are modelled as exact rationals (`ℚ`): decimal literals
  become fractions (`0.03` is `3/100`), and `NaN`, the infinities and rounding
  are outside the model.
* `Math.PI`, `Math.cos`, `Math.sin`, `Math.random` and `Number.prototype.toLocaleString`
  are host functions; the code that calls them takes them as parameters.
* A function that may throw returns `Except JsError _`.
* Canvas drawing is recorded as the list of operations issued in a frame.
-/

namespace Virasat

/-! ## Utilities (script.js 10-21) -/

/-- The helper `clamp = (v, a, b) => Math.max(a, Math.min(b, v))`. -/
def clamp (v a b : ℚ) : ℚ := max a (min b v)

/-- The rounding of `Math.round`: the nearest integer, ties towards plus infinity. -/
def mathRound (v : ℚ) : ℤ := ⌊v + 1 / 2⌋

/-- The truth value JavaScript gives a number that may be `undefined`. -/
def truthy : Option ℚ → Bool
  | some v => decide (v ≠ 0)
  | none => false

/-- The expression `a || b || 0` over numbers that may be `undefined`. -/
def orZero (a b : Option ℚ) : ℚ :=
  if truthy a then a.getD 0 else if truthy b then b.getD 0 else 0

/-- The exceptions the script can raise. -/
inductive JsError where
  | typeError
  | referenceError
  deriving DecidableEq, Repr

/-- The host constant `Math.PI` and the host functions `Math.cos` and `Math.sin`. -/
structure Trig where
  pi : ℚ
  cos : ℚ → ℚ
  sin : ℚ → ℚ

/-- Rational polynomials standing in for `Math.cos` and `Math.sin` when a frame is
evaluated on concrete numbers; both are exact at `0`. -/
def trigSeries : Trig where
  pi := 355 / 113
  cos := fun w => 1 - w ^ 2 / 2 + w ^ 4 / 24
  sin := fun w => w - w ^ 3 / 6 + w ^ 5 / 120

/-! ## Particles (script.js 122-161, 201-211) -/

/-- One entry of the `particles` array. -/
structure Particle where
  x : ℚ
  y : ℚ
  vx : ℚ
  vy : ℚ
  size : ℚ
  depth : ℚ
  layer : ℤ
  color : String
  alpha : ℚ
  wobble : ℚ
  wobbleSpeed : ℚ
  deriving DecidableEq, Repr

/-- The `pointer` object; `x` and `y` are compared with `undefined` by the loop. -/
structure Pointer where
  tx : ℚ
  ty : ℚ
  x : Option ℚ
  y : Option ℚ
  deriving DecidableEq, Repr

/-- The variables of `initBackgroundCanvas` that the animation loop reads and writes. -/
structure Anim where
  particles : List Particle
  pointer : Pointer
  lastTs : ℚ
  paused : Bool
  docW : ℚ
  docH : ℚ
  vw : ℚ
  vh : ℚ
  deriving DecidableEq, Repr

/-- What a frame reads from the window: scroll offsets, the reduced-motion media
query (`none` when `window.matchMedia` is missing) and the successive results of
`Math.random`. -/
structure FrameEnv where
  scrollX : Option ℚ
  pageXOffset : Option ℚ
  scrollY : Option ℚ
  pageYOffset : Option ℚ
  matchMedia : Option Bool
  rnd : ℕ → ℚ

/-- The value `hexToRgba(hex, a)` denotes: a colour and an opacity. -/
structure Rgba where
  hex : String
  a : ℚ
  deriving DecidableEq, Repr

/-- The canvas calls of one frame. Arcs are full circles, so only centre and radius
are kept. -/
inductive CanvasOp where
  | clearRect (x y w h : ℚ)
  | fillGradientRect (x y w h : ℚ)
  | fillRect (x y w h : ℚ) (style : String)
  | glow (dx dy r : ℚ) (inner : Rgba)
  | dot (dx dy r : ℚ) (fill : Rgba)
  | globalAlpha (v : ℚ)
  | lineWidth (v : ℚ)
  | line (ax ay bx bY : ℚ) (stroke : Rgba)
  deriving DecidableEq, Repr

/-- The effects of one call of `loop` visible outside its variables. -/
structure Frame where
  ops : List CanvasOp
  raf : Bool
  deriving DecidableEq, Repr

/-- The function `hexToRgba`. -/
def hexToRgba (hex : String) (a : ℚ) : Rgba := ⟨hex, a⟩

/-! ## The animation loop (script.js 268-392) -/

/-- The frame time `dt = Math.min(40, now - lastTs) || 16`. -/
def frameDt (now lastTs : ℚ) : ℚ :=
  let d := min 40 (now - lastTs)
  if d = 0 then 16 else d

/-- Pointer smoothing, lines 273-280. -/
def smooth (cur : Option ℚ) (target : ℚ) : ℚ :=
  match cur with
  | none => target
  | some v => v + (target - v) * (3 / 25)

/-- The wobble and velocity update of one particle, lines 306-311: the position
before wrap-around. -/
def moveParticle (M : Trig) (dt : ℚ) (p : Particle) : Particle :=
  let wobble := p.wobble + p.wobbleSpeed * (dt / 16)
  let x1 := p.x + M.cos wobble * (3 / 100) * (1 + p.depth * (4 / 5))
  let y1 := p.y + M.sin (wobble * (11 / 10)) * (3 / 100) * (1 + p.depth * (4 / 5))
  { p with wobble := wobble, x := x1 + p.vx * (dt / 16), y := y1 + p.vy * (dt / 16) }

/-- One coordinate of the wrap, lines 314-315 (and 316-317): two successive `if`s. -/
def wrapCoord (v doc : ℚ) : ℚ :=
  let v1 := if v < -60 then doc + 60 else v
  if v1 > doc + 60 then -60 else v1

/-- Wrap within the virtual document, lines 313-317. -/
def wrapParticle (docW docH : ℚ) (p : Particle) : Particle :=
  { p with x := wrapCoord p.x docW, y := wrapCoord p.y docH }

/-- The update of one particle in the `for` loop, lines 306-317. -/
def stepParticle (M : Trig) (docW docH dt : ℚ) (p : Particle) : Particle :=
  wrapParticle docW docH (moveParticle M dt p)

/-- The visibility test of lines 319-328: `true` when the loop does not `continue`. -/
def onScreen (vw vh scrollX scrollY : ℚ) (p : Particle) : Bool :=
  let sx := p.x - scrollX
  let sy := p.y - scrollY
  !(decide (sx < -140) || decide (sx > vw + 140) || decide (sy < -140) || decide (sy > vh + 140))

/-- The centre `(dx, dy)` at which a particle is drawn, lines 330-335. -/
def dotCentre (nx ny scrollX scrollY : ℚ) (p : Particle) : ℚ × ℚ :=
  let parallax := 28 * p.depth
  let ox := -nx * parallax
  let oy := -ny * parallax * (3 / 5)
  (p.x - scrollX + ox, p.y - scrollY + oy)

/-- The canvas calls for one (already moved) particle, lines 319-354. -/
def drawParticle (vw vh nx ny scrollX scrollY : ℚ) (p : Particle) : List CanvasOp :=
  if onScreen vw vh scrollX scrollY p then
    let c := dotCentre nx ny scrollX scrollY p
    let r := max 1 p.size
    [ CanvasOp.glow c.1 c.2 (r * 6) (hexToRgba p.color (clamp (p.alpha + 9 / 50) (3 / 50) 1)),
      CanvasOp.dot c.1 c.2 (max (3 / 5) (r * (9 / 20)))
        (hexToRgba "#ffffff" (clamp (p.alpha + 9 / 50) (3 / 50) 1)) ]
  else []

/-- The element `particles[Math.floor(r * particles.length)]`, `none` for `undefined`. -/
def pick (ps : List Particle) (r : ℚ) : Option Particle :=
  let i : ℤ := ⌊r * (ps.length : ℚ)⌋
  if i < 0 then none else ps.get? i.toNat

/-- One iteration `k` of the connecting-line loop, lines 366-387. -/
def connectLine (ps : List Particle) (px py cx cy scrollX scrollY : ℚ)
    (rnd : ℕ → ℚ) (k : ℕ) : List CanvasOp :=
  match pick ps (rnd (2 * k)), pick ps (rnd (2 * k + 1)) with
  | some a, some b =>
    if |a.layer - b.layer| > 1 then []
    else
      let ax := a.x - ((px - cx) / cx) * (a.depth * 12) - scrollX
      let ay := a.y - ((py - cy) / cy) * (a.depth * 8) - scrollY
      let bx := b.x - ((px - cx) / cx) * (b.depth * 12) - scrollX
      let bY := b.y - ((py - cy) / cy) * (b.depth * 8) - scrollY
      let dx := ax - bx
      let dy := ay - bY
      if dx * dx + dy * dy < 30000 then
        [CanvasOp.line ax ay bx bY
          (hexToRgba a.color (clamp (1 / 25 + a.depth * (1 / 50)) (1 / 50) (3 / 25)))]
      else []
  | _, _ => []

/-- The connecting lines of a frame, lines 357-389. -/
def connectLines (ps : List Particle) (px py cx cy scrollX scrollY : ℚ)
    (env : FrameEnv) : List CanvasOp :=
  if env.matchMedia.getD false then []
  else
    [CanvasOp.globalAlpha (3 / 50), CanvasOp.lineWidth (3 / 5)]
      ++ ((List.range 6).map (connectLine ps px py cx cy scrollX scrollY env.rnd)).flatten
      ++ [CanvasOp.globalAlpha 1]

/-- The function `loop(now)`: the new variables and the effects of the call. -/
def loop (M : Trig) (env : FrameEnv) (s : Anim) (now : ℚ) : Anim × Frame :=
  if s.paused then (s, ⟨[], false⟩)
  else
    let dt := frameDt now s.lastTs
    let px := smooth s.pointer.x s.pointer.tx
    let py := smooth s.pointer.y s.pointer.ty
    let pointer : Pointer := { s.pointer with x := some px, y := some py }
    let scrollX := orZero env.scrollX env.pageXOffset
    let scrollY := orZero env.scrollY env.pageYOffset
    let cx := s.vw / 2
    let cy := s.vh / 2
    let nx := (px - cx) / cx
    let ny := (py - cy) / cy
    let ps := s.particles.map (stepParticle M s.docW s.docH dt)
    let dots := (ps.map (drawParticle s.vw s.vh nx ny scrollX scrollY)).flatten
    let lines := connectLines ps px py cx cy scrollX scrollY env
    ({ s with lastTs := now, pointer := pointer, particles := ps },
      ⟨[CanvasOp.clearRect 0 0 s.vw s.vh, CanvasOp.fillGradientRect 0 0 s.vw s.vh]
          ++ dots ++ lines, true⟩)

/-- The fields of a particle that the loop never assigns. -/
def frozen (p : Particle) : ℚ × ℚ × ℚ × ℚ × ℤ × String × ℚ × ℚ :=
  (p.vx, p.vy, p.size, p.depth, p.layer, p.color, p.alpha, p.wobbleSpeed)

/-! ## Initialisation of the background canvas (script.js 44-414) -/

/-- What `canvas.getContext && canvas.getContext("2d")` can yield: the method is
missing, it returns `null`, or it returns a drawing context. -/
inductive CanvasContext where
  | missing
  | null
  | ok
  deriving DecidableEq, Repr

/-- The window and document measurements read during initialisation. -/
structure Window where
  innerWidth : ℚ
  innerHeight : ℚ
  scrollWidth : ℚ
  clientWidth : ℚ
  scrollHeight : ℚ
  clientHeight : ℚ
  matchMedia : Option Bool
  performanceNow : ℚ

/-- The function `getDocDims`, lines 83-97. -/
def getDocDims (w : Window) : ℚ × ℚ :=
  (max (max w.scrollWidth w.clientWidth) (orZero (some w.innerWidth) none),
   max (max w.scrollHeight w.clientHeight) (orZero (some w.innerHeight) none))

/-- The particle count of lines 107-120 and 165-176. The product
`PARTICLE_COUNT * 0.35` is taken exactly; in double arithmetic it falls just below an
integer at the full counts 180, 340 and 360, where the script gets one particle less. -/
def particleCount (w : Window) (docW docH : ℚ) : ℤ :=
  let full : ℤ := max 60 (min 450 (mathRound (docW * docH / 40000)))
  if w.matchMedia.getD false then max 20 ⌊(full : ℚ) * (7 / 20)⌋ else full

/-- The object pushed by `initParticles`, lines 141-159; `r k` is the `k`-th result
of `Math.random` for this particle. -/
def newParticle (M : Trig) (docW docH : ℚ) (r : ℕ → ℚ) : Particle :=
  let layer : ℤ := ⌊r 0 * 4⌋
  let depth : ℚ := ((layer : ℚ) + 1) / 4
  let size := clamp ((r 1 * (8 - 2) + 2) * (7 / 10 + depth * (4 / 5))) 1 22
  let color := if r 2 > 18 / 25 then "#F6A15C" else if r 2 > 9 / 25 then "#7BE6DD" else "#9FB0C1"
  { x := r 3 * docW
    y := r 4 * docH
    vx := (r 5 * (1 / 5 - -(1 / 5)) + -(1 / 5)) * (3 / 5 + depth)
    vy := (r 6 * (3 / 25 - -(3 / 25)) + -(3 / 25)) * (3 / 5 + depth)
    size := size
    depth := depth
    layer := layer
    color := color
    alpha := clamp (3 / 50 + r 7 * (1 / 5) + depth * (3 / 50)) (1 / 25) (19 / 20)
    wobble := r 8 * M.pi * 2
    wobbleSpeed := 1 / 1250 + r 9 * (1 / 250) }

/-- The function `initParticles`, lines 138-161: particle `i` consumes the ten random
numbers starting at `10 * i`. -/
def initParticles (M : Trig) (docW docH : ℚ) (count : ℤ) (rnd : ℕ → ℚ) : List Particle :=
  (List.range count.toNat).map (fun i => newParticle M docW docH (fun k => rnd (10 * i + k)))

/-- What `initBackgroundCanvas` leaves behind when it returns: the loop variables,
the test block drawn at lines 73-74 and whether an animation frame was requested. -/
structure Background where
  anim : Option Anim
  ops : List CanvasOp
  raf : Bool
  deriving DecidableEq, Repr

/-- The function `initBackgroundCanvas`. Lines 73-74 assign to and call through
`ctx` before line 76 tests it. The document dimensions do not change during the
call, so `setupViewport` finds the array already at `PARTICLE_COUNT`. -/
def initBackgroundCanvas (M : Trig) (w : Window) (canvas : CanvasContext) (rnd : ℕ → ℚ) :
    Except JsError Background :=
  match canvas with
  | CanvasContext.missing => Except.error JsError.typeError
  | CanvasContext.null => Except.error JsError.typeError
  | CanvasContext.ok =>
    let vw := max 320 w.innerWidth
    let vh := max 320 w.innerHeight
    let d := getDocDims w
    let count := particleCount w d.1 d.2
    Except.ok
      { anim := some
          { particles := initParticles M d.1 d.2 count rnd
            pointer := ⟨vw / 2, vh / 2, some (vw / 2), some (vh / 2)⟩
            lastTs := w.performanceNow
            paused := false
            docW := d.1
            docH := d.2
            vw := vw
            vh := vh }
        ops := [CanvasOp.fillRect 10 10 50 50 "red"]
        raf := true }

/-! ## Stats counter (script.js 417-493) and the `.counter` fallback (1298-1327) -/

/-- How `initStatsCounter` ended: nothing to do, armed through `ScrollTrigger`, or
armed through an `IntersectionObserver`. -/
inductive StatsWiring where
  | nothing
  | scrollTrigger
  | observer
  deriving DecidableEq, Repr

/-- The libraries and browser APIs the script tests for. -/
structure Features where
  gsap : Bool
  scrollTrigger : Bool
  scrollTriggerCreateThrows : Bool
  intersectionObserver : Bool
  deriving DecidableEq, Repr

/-- The function `initStatsCounter`, lines 417-487. `stats` is the `.impact-stats`
block, given by the targets computed for its `.num` elements (lines 423-430). -/
def initStatsCounter (f : Features) (stats : Option (List ℚ)) : Except JsError StatsWiring :=
  match stats with
  | none => Except.ok StatsWiring.nothing
  | some [] => Except.ok StatsWiring.nothing
  | some (_ :: _) =>
    if f.scrollTrigger && f.gsap && !f.scrollTriggerCreateThrows then
      Except.ok StatsWiring.scrollTrigger
    else if f.intersectionObserver then Except.ok StatsWiring.observer
    else Except.error JsError.referenceError

/-- The functions `format` (lines 489-492) and `vb_formatNumber` (1146-1149);
`loc` is `Number.prototype.toLocaleString` on integers. -/
def format (loc : ℤ → String) (v : ℚ) : String :=
  let n := mathRound v
  if n ≥ 1000 then loc n else toString n

/-- The state of one interval-driven counter: the variable `cur`, the element text
(`none` until first written), whether the interval is still set, and how often
`clearInterval` ran. -/
structure Counter where
  cur : ℚ
  text : Option String
  active : Bool
  clears : ℕ
  deriving DecidableEq, Repr

/-- The interval callback of lines 451-457 and 1319-1325. A cleared interval no
longer fires. -/
def tick (loc : ℤ → String) (t step : ℚ) (c : Counter) : Counter :=
  if c.active then
    let cur := c.cur + step
    if cur ≥ t then
      { cur := cur, text := some (format loc t), active := false, clears := c.clears + 1 }
    else { c with cur := cur, text := some (format loc cur) }
  else c

/-- How a counter is driven: by a `gsap` tween towards `t`, or by an interval with the
given `step`. -/
inductive CounterRun where
  | tween (t : ℚ)
  | interval (t step : ℚ)
  deriving DecidableEq, Repr

/-- The body of `runCount` for one element, lines 433-459 (`t = targets[idx] || 0`). -/
def runCount (gsap : Bool) (t : ℚ) : CounterRun :=
  if gsap then CounterRun.tween t
  else CounterRun.interval t (max 1 (mathRound (t / 30) : ℚ))

/-- The function `animateCounter`, lines 1302-1327, on a numeric target. -/
def animateCounter (gsap prefersReduced : Bool) (target : ℚ) : CounterRun :=
  if gsap && !prefersReduced then CounterRun.tween target
  else CounterRun.interval target (max 1 (mathRound (target / 30) : ℚ))

/-- The counter after `n` firings of the interval; a tween sets no interval. -/
def afterTicks (loc : ℤ → String) (r : CounterRun) (n : ℕ) : Counter :=
  match r with
  | CounterRun.tween _ => ⟨0, none, false, 0⟩
  | CounterRun.interval t step => (tick loc t step)^[n] ⟨0, none, true, 0⟩

/-! ## Gallery modal (script.js 496-570) -/

/-- The expression `a || b` on strings, `none` standing for `undefined`. -/
def strOr (a : Option String) (b : String) : String :=
  match a with
  | some s => if s = "" then b else s
  | none => b

/-- The `#modal` element: the `src` of `#modalImg` and the texts of `#modalTitle` and
`#modalDesc` (`none` when the element is absent), its `display` style, its
`aria-hidden` attribute and the number of `gsap.from` calls made on it. -/
structure Modal where
  imgSrc : Option String
  titleText : Option String
  descText : Option String
  display : String
  ariaHidden : String
  tweens : ℕ
  deriving DecidableEq, Repr

/-- The inner function `open(src, title, desc)`, lines 503-511. -/
def openModal (gsap : Bool) (m : Modal) (src : String) (title desc : Option String) : Modal :=
  { imgSrc := m.imgSrc.map (fun _ => src)
    titleText := m.titleText.map (fun _ => strOr title "")
    descText := m.descText.map (fun _ => strOr desc "")
    display := "flex"
    ariaHidden := "false"
    tweens := if gsap then m.tweens + 1 else m.tweens }

/-- The inner function `close`, lines 512-516. -/
def closeModal (m : Modal) : Modal :=
  { m with display := "none", ariaHidden := "true", imgSrc := m.imgSrc.map (fun _ => "") }

/-- An `img` element: its `src`, `data-title`, `alt` and `data-desc`. -/
structure Img where
  src : String
  dataTitle : Option String
  alt : String
  dataDesc : Option String
  deriving DecidableEq, Repr

/-- The click listener `initGalleryModal` puts on one `.gallery img`, lines 521-527. -/
def galleryClick (gsap : Bool) (img : Img) (m : Modal) : Modal :=
  openModal gsap m img.src (some (strOr img.dataTitle (strOr (some img.alt) "")))
    (some (strOr img.dataDesc ""))

/-- The click listeners registered by `initGalleryModal` on the `.gallery img`
elements, in document order; none when there is no `#modal` (line 498). -/
def initGalleryModal (gsap : Bool) (modal : Option Modal) (gallery : List Img) :
    List (Modal → Modal) :=
  match modal with
  | none => []
  | some _ => gallery.map (galleryClick gsap)

/-! ## Boot (script.js 685-723) -/

/-- The page the script runs on, as far as `boot` can fail on it. -/
structure Page where
  window : Window
  canvas : CanvasContext
  features : Features
  stats : Option (List ℚ)
  modal : Option Modal
  gallery : List Img
  hasBody : Bool

/-- What `boot` leaves behind. -/
structure Booted where
  background : Background
  stats : StatsWiring
  galleryListeners : ℕ
  bodyOpacity : Option ℚ
  deriving DecidableEq, Repr

/-- The function `boot`. `safeRegisterScrollTrigger` and the intro tweens run inside
`try`/`catch`; `initFlipCards`, `initTimelineProgress`, `initFormDemos`,
`initDownloadButtons`, `initNavLinks`, `initRipple` and `initReadMoreAnimation` only
query elements and add listeners. -/
def boot (M : Trig) (pg : Page) (rnd : ℕ → ℚ) : Except JsError Booted := do
  let bg ← initBackgroundCanvas M pg.window pg.canvas rnd
  let st ← initStatsCounter pg.features pg.stats
  let ls := initGalleryModal pg.features.gsap pg.modal pg.gallery
  pure
    { background := bg
      stats := st
      galleryListeners := ls.length
      bodyOpacity := if pg.hasBody then some 1 else none }

/-! ## Statements at the end of the script (script.js 1481-1565) -/

/-- A `.progress-gallery` element: its `.carousel-track` child, if any, given by the
`offsetWidth` of each `img` inside the track. -/
structure ProgressGallery where
  track : Option (List ℚ)
  deriving DecidableEq, Repr

/-- The callback of lines 1482-1501 for one gallery: the `x` target handed to
`gsap.to`. -/
def autoScroll (gsap : Bool) (g : ProgressGallery) : Except JsError ℚ :=
  match g.track with
  | none => Except.error JsError.typeError
  | some widths =>
    let totalWidth := (widths.map (fun wd => wd + 16)).sum
    if gsap then Except.ok (-totalWidth / 2) else Except.error JsError.referenceError

/-- What the statements after the Vikas block leave behind. -/
structure Tail where
  tweens : List ℚ
  navToggleListener : Bool
  extrasReady : Bool
  deriving DecidableEq, Repr

/-- Lines 1481-1565 in order: the progress-gallery `forEach`, the
`DOMContentLoaded` listener for the mobile nav toggle, and `onReady` for
`vb_runExtraInits`. -/
def scriptTail (gsap : Bool) (galleries : List ProgressGallery) : Except JsError Tail := do
  let tw ← galleries.mapM (autoScroll gsap)
  pure { tweens := tw, navToggleListener := true, extrasReady := true }

/-! ## Pointer events and runs of the animation (script.js 201-213, 391-398) -/

/-- A `mousemove` or `touchmove` event: the first touch point, if any, and the
`clientX`, `clientY` of the event itself. -/
structure PointerEvt where
  touch : Option (ℚ × ℚ)
  clientX : ℚ
  clientY : ℚ
  deriving DecidableEq, Repr

/-- The target an event gives the pointer, lines 204-210. -/
def PointerEvt.target (e : PointerEvt) : ℚ × ℚ :=
  match e.touch with
  | some t => t
  | none => (e.clientX, e.clientY)

/-- The listener `pointerMove`, lines 203-211: only `tx` and `ty` are assigned. -/
def pointerMove (e : PointerEvt) (p : Pointer) : Pointer :=
  { p with tx := e.target.1, ty := e.target.2 }

/-- What happens to the animation between two moments: a pointer event, or an
animation frame with its environment and timestamp. -/
inductive Action where
  | move (e : PointerEvt)
  | frame (env : FrameEnv) (now : ℚ)

/-- The loop variables after one action. -/
def act (M : Trig) (s : Anim) : Action → Anim
  | Action.move e => { s with pointer := pointerMove e s.pointer }
  | Action.frame env now => (loop M env s now).1

/-- The loop variables after a sequence of actions. -/
def run (M : Trig) (s : Anim) (acts : List Action) : Anim :=
  acts.foldl (act M) s

/-! ## Quantities of one frame (script.js 292-299) -/

/-- The value `nx` of line 298 in the frame that starts from `s`: it is computed from
the pointer smoothed in that frame. -/
def frameNx (s : Anim) : ℚ :=
  (smooth s.pointer.x s.pointer.tx - s.vw / 2) / (s.vw / 2)

/-- The value `ny` of line 299 in the frame that starts from `s`. -/
def frameNy (s : Anim) : ℚ :=
  (smooth s.pointer.y s.pointer.ty - s.vh / 2) / (s.vh / 2)

/-- The smoothed pointer lies in the viewport `[0, vw] × [0, vh]`. -/
def pointerInside (s : Anim) : Prop :=
  match s.pointer.x, s.pointer.y with
  | some x, some y => 0 ≤ x ∧ x ≤ s.vw ∧ 0 ≤ y ∧ y ≤ s.vh
  | _, _ => False

instance (s : Anim) : Decidable (pointerInside s) := by
  unfold pointerInside
  split <;> infer_instance

/-- A point lies in the viewport of `s`. -/
def inViewport (s : Anim) (t : ℚ × ℚ) : Prop :=
  0 ≤ t.1 ∧ t.1 ≤ s.vw ∧ 0 ≤ t.2 ∧ t.2 ≤ s.vh

instance (s : Anim) (t : ℚ × ℚ) : Decidable (inViewport s t) := by
  unfold inViewport
  infer_instance

/-! ## Idempotence guards (script.js 1068-1078, 1133-1135, 1471-1478) -/

/-- The calls guarded by the two `window` flags. -/
inductive Call where
  | vb_initDetailsAnimations
  | vb_initGalleryTilt
  | vb_initGSAPAnimations
  | listenDomContentLoaded
  | setTimeoutBootVikasExtras
  deriving DecidableEq, Repr

/-- The flags `window.__vb_extraInitsDone` and `window.__vb_vikas_done`, and the
guarded calls made so far, oldest first. -/
structure Globals where
  extraInitsDone : Bool
  vikasDone : Bool
  calls : List Call
  deriving DecidableEq, Repr

/-- The function `vb_runExtraInits`, lines 1069-1078. -/
def vb_runExtraInits (g : Globals) : Globals :=
  if g.extraInitsDone then g
  else
    { g with
      extraInitsDone := true
      calls := g.calls ++ [Call.vb_initDetailsAnimations, Call.vb_initGalleryTilt,
        Call.vb_initGSAPAnimations] }

/-- One evaluation of the Vikas enhancement block, lines 1133-1479; `loading` is
`document.readyState === "loading"`. The declarations between the guard and the last
statement register nothing. -/
def vikasBlock (loading : Bool) (g : Globals) : Globals :=
  if g.vikasDone then g
  else
    { g with
      vikasDone := true
      calls := g.calls ++
        [if loading then Call.listenDomContentLoaded else Call.setTimeoutBootVikasExtras] }

/-! ## Carousel autoplay (script.js 1379-1406) -/

/-- The variable `autoplayId` (`none` for `null`), the interval ids set and not yet
cleared, and the number of `setInterval` calls made so far. The `k`-th call of
`setInterval` returns the id `k`; ids are positive. -/
structure Autoplay where
  autoplayId : Option ℕ
  active : List ℕ
  created : ℕ
  deriving DecidableEq, Repr

/-- The test `if (autoplayId)`. -/
def idSet : Option ℕ → Bool
  | some id => decide (id ≠ 0)
  | none => false

/-- The function `startAutoplay`, lines 1381-1392. -/
def startAutoplay (s : Autoplay) : Autoplay :=
  if idSet s.autoplayId then s
  else
    { autoplayId := some (s.created + 1)
      active := (s.created + 1) :: s.active
      created := s.created + 1 }

/-- The function `stopAutoplay`, lines 1393-1398. -/
def stopAutoplay (s : Autoplay) : Autoplay :=
  if idSet s.autoplayId then
    { s with active := s.active.filter (fun id => some id ≠ s.autoplayId), autoplayId := none }
  else s

/-- The four carousel events that have an autoplay listener. -/
inductive CarouselEvent where
  | mouseenter
  | mouseleave
  | touchstart
  | touchend
  deriving DecidableEq, Repr

/-- The events whose listener is `stopAutoplay`. -/
def CarouselEvent.stops : CarouselEvent → Bool
  | CarouselEvent.mouseenter => true
  | CarouselEvent.touchstart => true
  | _ => false

/-- The listeners of lines 1399-1402. -/
def onCarouselEvent (s : Autoplay) : CarouselEvent → Autoplay
  | CarouselEvent.mouseenter => stopAutoplay s
  | CarouselEvent.mouseleave => startAutoplay s
  | CarouselEvent.touchstart => stopAutoplay s
  | CarouselEvent.touchend => startAutoplay s

/-- The autoplay part of `vb_initCarousel` on a page that has a `.carousel`, lines
1380 and 1404-1406. -/
def vb_initCarousel (isTouch : Bool) : Autoplay :=
  if isTouch then ⟨none, [], 0⟩ else startAutoplay ⟨none, [], 0⟩

/-- The autoplay state after `vb_initCarousel` and a sequence of carousel events. -/
def carouselAfter (isTouch : Bool) (events : List CarouselEvent) : Autoplay :=
  events.foldl onCarouselEvent (vb_initCarousel isTouch)

/-! ## Scroll progress (script.js 594-607, 1278-1290, 1429-1436) -/

/-- The value `frac` of `initTimelineProgress.update`, line 601. -/
def updateFrac (top height vh : ℚ) : ℚ :=
  min 1 (max 0 ((vh - top) / (height + vh)))

/-- The width percentage written to `.progress`, line 602. -/
def progressWidth (top height vh : ℚ) : ℚ :=
  updateFrac top height vh * 100

/-- The scale computed by `updateLine`, lines 1281-1288, with `vh` for
`window.innerHeight`. -/
def updateLine (top height vh : ℚ) : ℚ :=
  max 0 (min 1 ((vh - top) / (height + vh)))

/-- The value `pct` of the quote-parallax fallback, line 1434. -/
def quotePct (top height winH : ℚ) : ℚ :=
  clamp ((winH - top) / (winH + height)) 0 1

/-! ## Concrete inputs used to evaluate the definitions -/

/-- A particle of layer 0 at the origin, with no wobble. -/
def sampleParticle : Particle :=
  { x := 0, y := 0, vx := 1 / 5, vy := 1 / 10, size := 4, depth := 1 / 4, layer := 0,
    color := "#7BE6DD", alpha := 1 / 5, wobble := 0, wobbleSpeed := 0 }

/-- A particle far outside the document on both axes. -/
def strayParticle : Particle :=
  { sampleParticle with x := -500, y := 9000 }

/-- Loop variables for a 1000 by 2000 document in a 800 by 600 viewport. -/
def sampleAnim : Anim :=
  { particles := [sampleParticle, strayParticle]
    pointer := ⟨400, 300, some 400, some 300⟩
    lastTs := 0
    paused := false
    docW := 1000
    docH := 2000
    vw := 800
    vh := 600 }

/-- A frame environment: no scrolling, no reduced motion, `Math.random` always `0`. -/
def sampleEnv : FrameEnv :=
  { scrollX := some 0, pageXOffset := some 0, scrollY := some 0, pageYOffset := some 0,
    matchMedia := some false, rnd := fun _ => 0 }

/-- A closed modal that has its image, title and description elements. -/
def sampleModal : Modal :=
  { imgSrc := some "", titleText := some "", descText := some "", display := "none",
    ariaHidden := "true", tweens := 0 }

/-- Two gallery thumbnails. -/
def sampleGallery : List Img :=
  [ { src := "img/craft.jpg", dataTitle := some "Craft", alt := "craft", dataDesc := none },
    { src := "img/skyline.jpg", dataTitle := none, alt := "skyline", dataDesc := some "City" } ]

/-- A window of 800 by 600 showing a document of 1000 by 2000. -/
def sampleWindow : Window :=
  { innerWidth := 800, innerHeight := 600, scrollWidth := 1000, clientWidth := 800,
    scrollHeight := 2000, clientHeight := 600, matchMedia := some false, performanceNow := 0 }

/-- A page with every library and API present, except that the canvas yields no 2D
context. -/
def pageWithoutContext : Page :=
  { window := sampleWindow
    canvas := CanvasContext.null
    features := { gsap := true, scrollTrigger := true, scrollTriggerCreateThrows := false,
                  intersectionObserver := true }
    stats := some [1200]
    modal := some sampleModal
    gallery := sampleGallery
    hasBody := true }

/-- A browser without `gsap`, `ScrollTrigger` and `IntersectionObserver`. -/
def bareFeatures : Features :=
  { gsap := false, scrollTrigger := false, scrollTriggerCreateThrows := false,
    intersectionObserver := false }

/-- A browser with `gsap` and a `ScrollTrigger` whose `create` throws, and without
`IntersectionObserver`. -/
def failingScrollTrigger : Features :=
  { gsap := true, scrollTrigger := true, scrollTriggerCreateThrows := true,
    intersectionObserver := false }

/-- The sample window with the media query `(prefers-reduced-motion: reduce)` matching. -/
def reducedMotionWindow : Window :=
  { sampleWindow with matchMedia := some true }

/-- Two still particles of neighbouring layers, 100 apart, with the smoothed pointer
resting at the right edge of the viewport. -/
def offsetAnim : Anim :=
  { particles :=
      [ { x := 100, y := 100, vx := 0, vy := 0, size := 4, depth := 1 / 4, layer := 0,
          color := "#7BE6DD", alpha := 1 / 5, wobble := 0, wobbleSpeed := 0 },
        { x := 200, y := 100, vx := 0, vy := 0, size := 4, depth := 1 / 2, layer := 1,
          color := "#F6A15C", alpha := 1 / 5, wobble := 0, wobbleSpeed := 0 } ]
    pointer := ⟨800, 300, some 800, some 300⟩
    lastTs := 0
    paused := false
    docW := 1000
    docH := 2000
    vw := 800
    vh := 600 }

/-- A frame environment whose `Math.random` returns `0` and `1/2` in turn, so that
every connecting line is tried between the first and the second particle. -/
def pairEnv : FrameEnv :=
  { sampleEnv with rnd := fun k => if k % 2 = 0 then 0 else 1 / 2 }

/-! ## The animation loop: properties -/

theorem wrapCoord_bounds (v doc : ℚ) (h : 0 ≤ doc) :
    -60 ≤ wrapCoord v doc ∧ wrapCoord v doc ≤ doc + 60 := by
  unfold wrapCoord
  by_cases h1 : v < -60
  · simp only [h1, if_true, gt_iff_lt, lt_irrefl, if_false]
    constructor <;> linarith
  · simp only [h1, if_false, gt_iff_lt]
    by_cases h2 : doc + 60 < v
    · simp only [h2, if_true]
      constructor <;> linarith
    · simp only [h2, if_false]
      constructor <;> linarith

theorem loop_particles (M : Trig) (env : FrameEnv) (s : Anim) (now : ℚ)
    (hp : s.paused = false) :
    (loop M env s now).1.particles
      = s.particles.map (stepParticle M s.docW s.docH (frameDt now s.lastTs)) := by
  simp [loop, hp]

/-- C1. Wrap-around invariant: after one unpaused loop step over a document of
non-negative width and height, every stored particle position lies in
`[-60, docW + 60] × [-60, docH + 60]`, whatever the position it started from. -/
theorem loop_wrap_invariant (M : Trig) (env : FrameEnv) (s : Anim) (now : ℚ)
    (hW : 0 ≤ s.docW) (hH : 0 ≤ s.docH) (hp : s.paused = false) :
    ∀ p ∈ (loop M env s now).1.particles,
      -60 ≤ p.x ∧ p.x ≤ s.docW + 60 ∧ -60 ≤ p.y ∧ p.y ≤ s.docH + 60 := by
  intro p hmem
  rw [loop_particles M env s now hp, List.mem_map] at hmem
  obtain ⟨q, _, rfl⟩ := hmem
  have hx := wrapCoord_bounds (moveParticle M (frameDt now s.lastTs) q).x s.docW hW
  have hy := wrapCoord_bounds (moveParticle M (frameDt now s.lastTs) q).y s.docH hH
  exact ⟨hx.1, hx.2, hy.1, hy.2⟩

/-- The invariant of C1 on a sample frame that contains a particle far outside the
document. -/
theorem loop_wrap_invariant_witness :
    (0 ≤ sampleAnim.docW ∧ 0 ≤ sampleAnim.docH ∧ sampleAnim.paused = false) ∧
    ∀ p ∈ (loop trigSeries sampleEnv sampleAnim 16).1.particles,
      -60 ≤ p.x ∧ p.x ≤ sampleAnim.docW + 60 ∧ -60 ≤ p.y ∧ p.y ≤ sampleAnim.docH + 60 :=
  ⟨⟨by norm_num [sampleAnim], by norm_num [sampleAnim], rfl⟩,
    loop_wrap_invariant trigSeries sampleEnv sampleAnim 16
      (by norm_num [sampleAnim]) (by norm_num [sampleAnim]) rfl⟩

/-- C2. While the page is hidden (`paused` is true) a call of `loop` returns at once:
particles, smoothed pointer and `lastTs` keep their values, no canvas operation is
issued and no animation frame is requested. -/
theorem loop_paused_noop (M : Trig) (env : FrameEnv) (s : Anim) (now : ℚ)
    (hp : s.paused = true) :
    loop M env s now = (s, { ops := [], raf := false }) := by
  simp [loop, hp]

/-- The statement of C2 on the sample variables with `paused` set. -/
theorem loop_paused_noop_witness :
    ({ sampleAnim with paused := true } : Anim).paused = true ∧
    loop trigSeries sampleEnv { sampleAnim with paused := true } 16
      = ({ sampleAnim with paused := true }, { ops := [], raf := false }) :=
  ⟨rfl, loop_paused_noop trigSeries sampleEnv { sampleAnim with paused := true } 16 rfl⟩

/-- C9, as stated, fails: on a 16 ms frame the sample particle (velocity `1/5`,
wobble `0`) is moved to `x = 59/250` before the wrap, not to `x + vx = 1/5`,
because of the wobble term `cos(0) * 0.03 * 1.2`. -/
theorem move_velocity_only_counterexample :
    (moveParticle trigSeries (frameDt 16 0) sampleParticle).x = 59 / 250 ∧
    ¬ ((moveParticle trigSeries (frameDt 16 0) sampleParticle).x
          = sampleParticle.x + sampleParticle.vx ∧
       (moveParticle trigSeries (frameDt 16 0) sampleParticle).y
          = sampleParticle.y + sampleParticle.vy) := by
  have hx : (moveParticle trigSeries (frameDt 16 0) sampleParticle).x = 59 / 250 := by
    norm_num [moveParticle, frameDt, sampleParticle, trigSeries]
  refine ⟨hx, ?_⟩
  rintro ⟨h, _⟩
  rw [hx] at h
  norm_num [sampleParticle] at h

/-- C9, amended. In an unpaused frame with `dt = Math.min(40, now - lastTs) || 16`
and `w = wobble + wobbleSpeed * (dt / 16)`, the stored position of every particle
is the wrap of `x + cos(w) * 0.03 * (1 + 0.8 * depth) + vx * (dt / 16)` and of
`y + sin(1.1 * w) * 0.03 * (1 + 0.8 * depth) + vy * (dt / 16)`: the velocity is
scaled by the frame time and a wobble displacement is added. -/
theorem loop_position_update (M : Trig) (env : FrameEnv) (s : Anim) (now : ℚ)
    (hp : s.paused = false) :
    (loop M env s now).1.particles.map (fun q => (q.x, q.y))
      = s.particles.map (fun p =>
          (wrapCoord
            (p.x + M.cos (p.wobble + p.wobbleSpeed * (frameDt now s.lastTs / 16)) * (3 / 100)
                * (1 + p.depth * (4 / 5)) + p.vx * (frameDt now s.lastTs / 16)) s.docW,
           wrapCoord
            (p.y + M.sin ((p.wobble + p.wobbleSpeed * (frameDt now s.lastTs / 16)) * (11 / 10))
                * (3 / 100) * (1 + p.depth * (4 / 5)) + p.vy * (frameDt now s.lastTs / 16))
              s.docH)) := by
  rw [loop_particles M env s now hp, List.map_map]
  rfl

/-- The amended C9 on the sample frame. -/
theorem loop_position_update_witness :
    sampleAnim.paused = false ∧
    (loop trigSeries sampleEnv sampleAnim 16).1.particles.map (fun q => (q.x, q.y))
      = sampleAnim.particles.map (fun p =>
          (wrapCoord
            (p.x + trigSeries.cos (p.wobble + p.wobbleSpeed * (frameDt 16 sampleAnim.lastTs / 16))
                * (3 / 100) * (1 + p.depth * (4 / 5))
              + p.vx * (frameDt 16 sampleAnim.lastTs / 16)) sampleAnim.docW,
           wrapCoord
            (p.y + trigSeries.sin ((p.wobble + p.wobbleSpeed * (frameDt 16 sampleAnim.lastTs / 16))
                  * (11 / 10)) * (3 / 100) * (1 + p.depth * (4 / 5))
              + p.vy * (frameDt 16 sampleAnim.lastTs / 16)) sampleAnim.docH)) :=
  ⟨rfl, loop_position_update trigSeries sampleEnv sampleAnim 16 rfl⟩

/-- C10. One call of `loop` keeps the number of particles and, in every particle,
the fields `vx`, `vy`, `size`, `depth`, `layer`, `color`, `alpha` and `wobbleSpeed`;
only `x`, `y` and `wobble` may change. -/
theorem loop_keeps_frozen_fields (M : Trig) (env : FrameEnv) (s : Anim) (now : ℚ) :
    (loop M env s now).1.particles.length = s.particles.length ∧
    (loop M env s now).1.particles.map frozen = s.particles.map frozen := by
  cases hp : s.paused
  · rw [loop_particles M env s now hp, List.length_map, List.map_map]
    exact ⟨rfl, rfl⟩
  · simp [loop, hp]

/-! ## Gallery modal: properties -/

/-- C3. For every `src`, `title` and `desc`, `open(src, title, desc)` on a modal that
has its image element leaves that image's `src` equal to `src`, the modal's `display`
equal to `"flex"` and its `aria-hidden` equal to `"false"`; and the click listener
registered on the `i`-th `.gallery` image is a call of `open` with that image's own
`src`, so that a click leaves the modal image showing it. -/
theorem gallery_click_opens_modal (gsap : Bool) (page m : Modal) (gallery : List Img)
    (src : String) (title desc : Option String) (i : ℕ) (hi : i < gallery.length)
    (himg : m.imgSrc.isSome = true) :
    (openModal gsap m src title desc).imgSrc = some src ∧
    (openModal gsap m src title desc).display = "flex" ∧
    (openModal gsap m src title desc).ariaHidden = "false" ∧
    ∃ listener, (initGalleryModal gsap (some page) gallery).get? i = some listener ∧
      listener m = openModal gsap m (gallery.get ⟨i, hi⟩).src
        (some (strOr (gallery.get ⟨i, hi⟩).dataTitle (strOr (some (gallery.get ⟨i, hi⟩).alt) "")))
        (some (strOr (gallery.get ⟨i, hi⟩).dataDesc "")) ∧
      (listener m).imgSrc = some (gallery.get ⟨i, hi⟩).src := by
  obtain ⟨old, hold⟩ := Option.isSome_iff_exists.mp himg
  refine ⟨by simp [openModal, hold], rfl, rfl, galleryClick gsap (gallery.get ⟨i, hi⟩), ?_, rfl, ?_⟩
  · simp [initGalleryModal, List.getElem?_map, List.getElem?_eq_getElem hi]
  · simp [galleryClick, openModal, hold]

/-- C3 on the sample gallery: a click on the second thumbnail. -/
theorem gallery_click_opens_modal_witness :
    (1 < sampleGallery.length ∧ sampleModal.imgSrc.isSome = true) ∧
    (openModal true sampleModal "img/x.jpg" (some "X") none).imgSrc = some "img/x.jpg" ∧
    (openModal true sampleModal "img/x.jpg" (some "X") none).display = "flex" ∧
    (openModal true sampleModal "img/x.jpg" (some "X") none).ariaHidden = "false" ∧
    ∃ listener, (initGalleryModal true (some sampleModal) sampleGallery).get? 1 = some listener ∧
      listener sampleModal = openModal true sampleModal
        (sampleGallery.get ⟨1, by decide⟩).src
        (some (strOr (sampleGallery.get ⟨1, by decide⟩).dataTitle
          (strOr (some (sampleGallery.get ⟨1, by decide⟩).alt) "")))
        (some (strOr (sampleGallery.get ⟨1, by decide⟩).dataDesc "")) ∧
      (listener sampleModal).imgSrc = some (sampleGallery.get ⟨1, by decide⟩).src :=
  ⟨⟨by decide, rfl⟩,
    gallery_click_opens_modal true sampleModal sampleModal sampleGallery "img/x.jpg" (some "X")
      none 1 (by decide) rfl⟩

/-! ## Feature checks: what the code does when something is absent -/

/-- C4 at its failing input. When `canvas.getContext` is missing or returns `null`,
`initBackgroundCanvas` does not return: the assignment `ctx.fillStyle = "red"` of line
73, placed before the test `if (!ctx) return` of line 76, raises a `TypeError`. -/
theorem initBackgroundCanvas_without_context_throws (M : Trig) (w : Window) (rnd : ℕ → ℚ) :
    initBackgroundCanvas M w CanvasContext.null rnd = Except.error JsError.typeError ∧
    initBackgroundCanvas M w CanvasContext.missing rnd = Except.error JsError.typeError :=
  ⟨rfl, rfl⟩

/-- C5 at its failing input. On a page whose canvas yields no 2D context, `boot` ends
with the `TypeError` of `initBackgroundCanvas`: the later initialisers do not run and
`document.body.style.opacity` is not set. -/
theorem boot_without_context_throws (M : Trig) (rnd : ℕ → ℚ) :
    boot M pageWithoutContext rnd = Except.error JsError.typeError :=
  rfl

/-- C6 at its failing input. With `IntersectionObserver` absent and the `ScrollTrigger`
path not taken, `initStatsCounter` on an `.impact-stats` block with at least one `.num`
element raises a `ReferenceError` at `new IntersectionObserver` (line 476), whether
`ScrollTrigger` is missing or `ScrollTrigger.create` throws. -/
theorem initStatsCounter_without_observer_throws (t : ℚ) (ts : List ℚ) :
    initStatsCounter bareFeatures (some (t :: ts)) = Except.error JsError.referenceError ∧
    initStatsCounter failingScrollTrigger (some (t :: ts))
      = Except.error JsError.referenceError :=
  ⟨rfl, rfl⟩

/-- C7 at its failing inputs. With `gsap` absent and one `.progress-gallery` that has
a track, the block raises a `ReferenceError` at `gsap.to`; with `gsap` present and a
`.progress-gallery` without `.carousel-track`, it raises a `TypeError` at
`track.querySelectorAll`. Either way the statements after the block are not reached. -/
theorem scriptTail_unguarded_throws :
    scriptTail false [⟨some [300, 300]⟩] = Except.error JsError.referenceError ∧
    scriptTail true [⟨none⟩] = Except.error JsError.typeError :=
  ⟨rfl, rfl⟩

/-! ## Timer-driven counters: properties -/

theorem tick_of_inactive (loc : ℤ → String) (t step : ℚ) (c : Counter)
    (h : c.active = false) : tick loc t step c = c := by
  simp [tick, h]

theorem iterate_tick_of_inactive (loc : ℤ → String) (t step : ℚ) (n : ℕ) (c : Counter)
    (h : c.active = false) : (tick loc t step)^[n] c = c := by
  induction n with
  | zero => rfl
  | succ k ih => rw [Function.iterate_succ_apply, tick_of_inactive loc t step c h, ih]

/-- A running counter whose `cur` reaches `t` within `N + 1` steps has stopped, with
one `clearInterval` and the text `format(t)`, after any `m ≥ N + 1` firings. -/
theorem ticks_stop (loc : ℤ → String) (t step : ℚ) (N : ℕ) :
    ∀ c : Counter, c.active = true → c.clears = 0 → t ≤ c.cur + ((N : ℚ) + 1) * step →
      ∀ m, N + 1 ≤ m →
        ((tick loc t step)^[m] c).active = false ∧ ((tick loc t step)^[m] c).clears = 1 ∧
        ((tick loc t step)^[m] c).text = some (format loc t) := by
  induction N with
  | zero =>
    intro c ha hc hle m hm
    obtain ⟨k, rfl⟩ : ∃ k, m = k + 1 := ⟨m - 1, by omega⟩
    have hstop : c.cur + step ≥ t := by simpa using hle
    have htick : tick loc t step c
        = { cur := c.cur + step, text := some (format loc t), active := false,
            clears := c.clears + 1 } := by
      simp [tick, ha, hstop]
    rw [Function.iterate_succ_apply, htick, iterate_tick_of_inactive loc t step k _ rfl]
    simp [hc]
  | succ n ih =>
    intro c ha hc hle m hm
    obtain ⟨k, rfl⟩ : ∃ k, m = k + 1 := ⟨m - 1, by omega⟩
    rw [Function.iterate_succ_apply]
    by_cases hstop : c.cur + step ≥ t
    · have htick : tick loc t step c
          = { cur := c.cur + step, text := some (format loc t), active := false,
              clears := c.clears + 1 } := by
        simp [tick, ha, hstop]
      rw [htick, iterate_tick_of_inactive loc t step k _ rfl]
      simp [hc]
    · have htick : tick loc t step c
          = { c with cur := c.cur + step, text := some (format loc (c.cur + step)) } := by
        simp [tick, ha, hstop]
      rw [htick]
      refine ih { c with cur := c.cur + step, text := some (format loc (c.cur + step)) }
        ha hc ?_ k (by omega)
      push_cast at hle ⊢
      show t ≤ c.cur + step + ((n : ℚ) + 1) * step
      linarith

/-- An interval counter started at `cur = 0` with a step of at least `1` stops. -/
theorem interval_stops (loc : ℤ → String) (t step : ℚ) (hstep : 1 ≤ step) :
    ∀ m, ⌈t⌉₊ + 1 ≤ m →
      (afterTicks loc (CounterRun.interval t step) m).active = false ∧
      (afterTicks loc (CounterRun.interval t step) m).clears = 1 ∧
      (afterTicks loc (CounterRun.interval t step) m).text = some (format loc t) := by
  intro m hm
  refine ticks_stop loc t step ⌈t⌉₊ ⟨0, none, true, 0⟩ rfl rfl ?_ m hm
  have h1 : t ≤ (⌈t⌉₊ : ℚ) := Nat.le_ceil t
  have h2 : (0 : ℚ) ≤ (⌈t⌉₊ : ℚ) := Nat.cast_nonneg _
  have h3 : ((⌈t⌉₊ : ℚ) + 1) * 1 ≤ ((⌈t⌉₊ : ℚ) + 1) * step :=
    mul_le_mul_of_nonneg_left hstep (by linarith)
  simp only [zero_add]
  linarith

/-- C8. Without the animation library, for every numeric target `t` the interval
counter of `runCount` and the one of `animateCounter` start running and, from some
number of firings on, have stopped for good: the interval was cleared exactly once and
the text of the element is `format(t)`. -/
theorem counter_fallback_stops (loc : ℤ → String) (t : ℚ) (prefersReduced : Bool) :
    (afterTicks loc (runCount false t) 0).active = true ∧
    (afterTicks loc (animateCounter false prefersReduced t) 0).active = true ∧
    ∃ n, ∀ m, n ≤ m →
      ((afterTicks loc (runCount false t) m).active = false ∧
       (afterTicks loc (runCount false t) m).clears = 1 ∧
       (afterTicks loc (runCount false t) m).text = some (format loc t)) ∧
      ((afterTicks loc (animateCounter false prefersReduced t) m).active = false ∧
       (afterTicks loc (animateCounter false prefersReduced t) m).clears = 1 ∧
       (afterTicks loc (animateCounter false prefersReduced t) m).text
          = some (format loc t)) := by
  have hstep : (1 : ℚ) ≤ max 1 (mathRound (t / 30) : ℚ) := le_max_left _ _
  have hrun : runCount false t = CounterRun.interval t (max 1 (mathRound (t / 30) : ℚ)) := rfl
  have hanim : animateCounter false prefersReduced t
      = CounterRun.interval t (max 1 (mathRound (t / 30) : ℚ)) := by
    simp [animateCounter]
  rw [hrun, hanim]
  refine ⟨rfl, rfl, ⌈t⌉₊ + 1, fun m hm => ?_⟩
  exact ⟨interval_stops loc t _ hstep m hm, interval_stops loc t _ hstep m hm⟩

/-! ## Idempotence guards: properties -/

/-- C11. A second call of `vb_runExtraInits` changes nothing and makes none of the three
initialiser calls again, and a second evaluation of the Vikas block returns before
registering anything: after the first run the flag is set and a further run is the
identity, so running either twice is the same as running it once. -/
theorem extra_boots_idempotent (g : Globals) (loading again : Bool) :
    (vb_runExtraInits { g with extraInitsDone := false }).calls
      = g.calls ++ [Call.vb_initDetailsAnimations, Call.vb_initGalleryTilt,
          Call.vb_initGSAPAnimations] ∧
    (vb_runExtraInits g).extraInitsDone = true ∧
    vb_runExtraInits (vb_runExtraInits g) = vb_runExtraInits g ∧
    (vb_runExtraInits (vb_runExtraInits g)).calls = (vb_runExtraInits g).calls ∧
    (vikasBlock loading g).vikasDone = true ∧
    vikasBlock again (vikasBlock loading g) = vikasBlock loading g ∧
    (vikasBlock again (vikasBlock loading g)).calls = (vikasBlock loading g).calls := by
  have h1 : (vb_runExtraInits g).extraInitsDone = true := by
    unfold vb_runExtraInits
    cases h : g.extraInitsDone <;> simp [h]
  have h2 : vb_runExtraInits (vb_runExtraInits g) = vb_runExtraInits g := by
    have hdone : ∀ k : Globals, k.extraInitsDone = true → vb_runExtraInits k = k := by
      intro k hk
      simp [vb_runExtraInits, hk]
    exact hdone _ h1
  have h3 : (vikasBlock loading g).vikasDone = true := by
    unfold vikasBlock
    cases h : g.vikasDone <;> simp [h]
  have h4 : vikasBlock again (vikasBlock loading g) = vikasBlock loading g := by
    have hdone : ∀ k : Globals, k.vikasDone = true → vikasBlock again k = k := by
      intro k hk
      simp [vikasBlock, hk]
    exact hdone _ h3
  exact ⟨by simp [vb_runExtraInits], h1, h2, by rw [h2], h3, h4, by rw [h4]⟩

/-! ## Carousel autoplay: properties -/

/-- The autoplay invariant: the intervals still set are exactly the one recorded in
`autoplayId`, whose id is positive and was issued by an earlier `setInterval`. -/
theorem autoplay_invariant (isTouch : Bool) (events : List CarouselEvent) :
    (carouselAfter isTouch events).active = (carouselAfter isTouch events).autoplayId.toList ∧
    ∀ id ∈ (carouselAfter isTouch events).autoplayId, id ≠ 0 := by
  unfold carouselAfter
  have hinit : (vb_initCarousel isTouch).active = (vb_initCarousel isTouch).autoplayId.toList ∧
      ∀ id ∈ (vb_initCarousel isTouch).autoplayId, id ≠ 0 := by
    cases isTouch <;> simp [vb_initCarousel, startAutoplay, idSet]
  generalize vb_initCarousel isTouch = s at hinit
  induction events generalizing s with
  | nil => exact hinit
  | cons e es ih =>
    rw [List.foldl_cons]
    apply ih
    obtain ⟨ha, hid⟩ := hinit
    rcases s with ⟨aid, act, n⟩
    cases aid with
    | none =>
      simp only [Option.toList] at ha
      subst ha
      cases e <;> simp [onCarouselEvent, startAutoplay, stopAutoplay, idSet]
    | some id =>
      have hne : id ≠ 0 := hid id rfl
      simp only [Option.toList] at ha
      subst ha
      cases e <;> simp [onCarouselEvent, startAutoplay, stopAutoplay, idSet, hne]

/-- After a stop event and any further stop events no interval is set. -/
theorem stops_leave_nothing (s : Autoplay) (hs : s.active = s.autoplayId.toList)
    (hid : ∀ id ∈ s.autoplayId, id ≠ 0) (l : List CarouselEvent) :
    ((l.filter CarouselEvent.stops).foldl onCarouselEvent (stopAutoplay s)).active = [] ∧
    ((l.filter CarouselEvent.stops).foldl onCarouselEvent (stopAutoplay s)).autoplayId
      = none := by
  have h0 : (stopAutoplay s).active = [] ∧ (stopAutoplay s).autoplayId = none := by
    rcases s with ⟨aid, act, n⟩
    cases aid with
    | none =>
      simp only [Option.toList] at hs
      subst hs
      simp [stopAutoplay, idSet]
    | some id =>
      have hne : id ≠ 0 := hid id rfl
      simp only [Option.toList] at hs
      subst hs
      simp [stopAutoplay, idSet, hne]
  generalize stopAutoplay s = u at h0
  induction l generalizing u with
  | nil => exact h0
  | cons e es ih =>
    rcases u with ⟨aid, act, n⟩
    obtain ⟨ha, hi⟩ := h0
    simp only at ha hi
    subst ha hi
    cases e
    · simpa [List.filter, CarouselEvent.stops, onCarouselEvent, stopAutoplay, idSet]
        using ih ⟨none, [], n⟩ ⟨rfl, rfl⟩
    · simpa [List.filter, CarouselEvent.stops] using ih ⟨none, [], n⟩ ⟨rfl, rfl⟩
    · simpa [List.filter, CarouselEvent.stops, onCarouselEvent, stopAutoplay, idSet]
        using ih ⟨none, [], n⟩ ⟨rfl, rfl⟩
    · simpa [List.filter, CarouselEvent.stops] using ih ⟨none, [], n⟩ ⟨rfl, rfl⟩

/-- C13. For every sequence of `mouseenter`, `mouseleave`, `touchstart` and `touchend`
events, at most one autoplay interval is set, `autoplayId` is non-null exactly when one
is, and from a `mouseenter` or `touchstart` until the next `mouseleave` or `touchend`
(that is, after any further `mouseenter` and `touchstart` events) no interval is set. -/
theorem autoplay_never_stacks (isTouch : Bool) (events later : List CarouselEvent) :
    (carouselAfter isTouch events).active.length ≤ 1 ∧
    ((carouselAfter isTouch events).autoplayId.isSome = true
      ↔ (carouselAfter isTouch events).active.length = 1) ∧
    (carouselAfter isTouch
      (events ++ CarouselEvent.mouseenter :: later.filter CarouselEvent.stops)).active = [] ∧
    (carouselAfter isTouch
      (events ++ CarouselEvent.touchstart :: later.filter CarouselEvent.stops)).active = [] := by
  obtain ⟨ha, hid⟩ := autoplay_invariant isTouch events
  refine ⟨?_, ?_, ?_, ?_⟩
  · rw [ha]
    cases (carouselAfter isTouch events).autoplayId <;> simp [Option.toList]
  · rw [ha]
    cases (carouselAfter isTouch events).autoplayId <;> simp [Option.toList]
  · have h := (stops_leave_nothing (carouselAfter isTouch events) ha hid later).1
    simpa [carouselAfter, List.foldl_append, onCarouselEvent] using h
  · have h := (stops_leave_nothing (carouselAfter isTouch events) ha hid later).1
    simpa [carouselAfter, List.foldl_append, onCarouselEvent] using h

/-- Stop events leave an idle carousel idle: nothing is set and no timer is created. -/
theorem stops_from_idle (n : ℕ) (l : List CarouselEvent) :
    (l.filter CarouselEvent.stops).foldl onCarouselEvent ⟨none, [], n⟩ = ⟨none, [], n⟩ := by
  induction l with
  | nil => rfl
  | cons e es ih =>
    cases e
    · simpa [List.filter, CarouselEvent.stops, onCarouselEvent, stopAutoplay, idSet] using ih
    · simpa [List.filter, CarouselEvent.stops] using ih
    · simpa [List.filter, CarouselEvent.stops, onCarouselEvent, stopAutoplay, idSet] using ih
    · simpa [List.filter, CarouselEvent.stops] using ih

/-- C15 at its failing input. On a touch device `vb_initCarousel` starts no interval and
`mouseenter` and `touchstart` events start none, but the `touchend` listener and the
`mouseleave` listener call `startAutoplay` whatever `isTouch` is: after a `touchstart`
followed by a `touchend` interval 1 is set, and so it is after any sequence of stop
events followed by one `touchend` or one `mouseleave`. -/
theorem touch_autoplay_starts (events : List CarouselEvent) :
    (carouselAfter true [CarouselEvent.touchstart, CarouselEvent.touchend]).active = [1] ∧
    carouselAfter true [] = ⟨none, [], 0⟩ ∧
    carouselAfter true (events.filter CarouselEvent.stops) = ⟨none, [], 0⟩ ∧
    carouselAfter true (events.filter CarouselEvent.stops ++ [CarouselEvent.touchend])
      = ⟨some 1, [1], 1⟩ ∧
    carouselAfter true (events.filter CarouselEvent.stops ++ [CarouselEvent.mouseleave])
      = ⟨some 1, [1], 1⟩ := by
  have hidle : carouselAfter true (events.filter CarouselEvent.stops) = ⟨none, [], 0⟩ := by
    simpa [carouselAfter, vb_initCarousel] using stops_from_idle 0 events
  have hidle' : (events.filter CarouselEvent.stops).foldl onCarouselEvent
      (vb_initCarousel true) = ⟨none, [], 0⟩ := hidle
  refine ⟨by decide, rfl, hidle, ?_, ?_⟩
  · unfold carouselAfter
    rw [List.foldl_append, hidle']
    rfl
  · unfold carouselAfter
    rw [List.foldl_append, hidle']
    rfl

/-! ## Particle count and scroll progress: properties -/

/-- C14 at its failing input. For the 1000 by 2000 sample document the full density is
`clamp(round(docW * docH / 40000), 60, 450) = 60`, but when the reduced-motion media
query matches the count computed at initialisation is `max(20, floor(60 * 0.35)) = 21`,
and `initBackgroundCanvas` creates 21 particles. -/
theorem particleCount_reduced_motion :
    getDocDims reducedMotionWindow = (1000, 2000) ∧
    max 60 (min 450 (mathRound ((1000 : ℚ) * 2000 / 40000))) = 60 ∧
    particleCount sampleWindow 1000 2000 = 60 ∧
    particleCount reducedMotionWindow 1000 2000 = 21 ∧
    ∀ (M : Trig) (rnd : ℕ → ℚ),
      (initBackgroundCanvas M reducedMotionWindow CanvasContext.ok rnd).toOption.map
        (fun b => b.anim.map (fun a => a.particles.length)) = some (some 21) := by
  have hdim : getDocDims reducedMotionWindow = (1000, 2000) := by
    norm_num [getDocDims, reducedMotionWindow, sampleWindow, orZero, truthy]
  have hround : mathRound ((1000 : ℚ) * 2000 / 40000) = 50 := by
    norm_num [mathRound, Int.floor_eq_iff]
  have hfloor : ⌊((60 : ℤ) : ℚ) * (7 / 20)⌋ = 21 := by
    norm_num [Int.floor_eq_iff]
  have hfull : particleCount sampleWindow 1000 2000 = 60 := by
    simp only [particleCount, hround, sampleWindow]
    norm_num
  have hred : particleCount reducedMotionWindow 1000 2000 = 21 := by
    have h60 : max (60 : ℤ) (min 450 50) = 60 := by decide
    simp only [particleCount, hround, reducedMotionWindow, sampleWindow, h60, hfloor]
    norm_num
  refine ⟨hdim, by rw [hround]; decide, hfull, hred, fun M rnd => ?_⟩
  simp [initBackgroundCanvas, hdim, hred, initParticles, Except.toOption]

/-- The three scroll fractions are the same clamp. -/
theorem fractions_agree (top height vh : ℚ) :
    updateFrac top height vh = clamp ((vh - top) / (height + vh)) 0 1 ∧
    updateLine top height vh = clamp ((vh - top) / (height + vh)) 0 1 ∧
    quotePct top height vh = clamp ((vh - top) / (height + vh)) 0 1 := by
  refine ⟨?_, rfl, ?_⟩
  · unfold updateFrac clamp
    rcases le_total ((vh - top) / (height + vh)) 0 with h | h
    · have h1 : (vh - top) / (height + vh) ≤ 1 := le_trans h (by norm_num)
      rw [max_eq_left h, min_eq_right h1, min_eq_right (by norm_num), max_eq_left h]
    · rw [max_eq_right h]
      rcases le_total ((vh - top) / (height + vh)) 1 with h1 | h1
      · rw [min_eq_right h1, max_eq_right h]
      · rw [min_eq_left h1, max_eq_right (by norm_num)]
  · unfold quotePct
    rw [add_comm vh height]

/-- C16. For `height + vh > 0` the fractions of `initTimelineProgress.update`,
`updateLine` and the quote-parallax fallback are all `clamp((vh - top) / (height + vh),
0, 1)`; the value lies in `[0, 1]`, is `0` when `top >= vh`, is `1` when
`top <= -height`, and does not increase when `top` grows; so the progress width is
between 0% and 100%. -/
theorem scroll_progress (top top2 height vh : ℚ) (hpos : 0 < height + vh) :
    (updateFrac top height vh = clamp ((vh - top) / (height + vh)) 0 1 ∧
     updateLine top height vh = clamp ((vh - top) / (height + vh)) 0 1 ∧
     quotePct top height vh = clamp ((vh - top) / (height + vh)) 0 1) ∧
    (0 ≤ clamp ((vh - top) / (height + vh)) 0 1 ∧
     clamp ((vh - top) / (height + vh)) 0 1 ≤ 1) ∧
    (vh ≤ top → clamp ((vh - top) / (height + vh)) 0 1 = 0) ∧
    (top ≤ -height → clamp ((vh - top) / (height + vh)) 0 1 = 1) ∧
    (top ≤ top2 → clamp ((vh - top2) / (height + vh)) 0 1
        ≤ clamp ((vh - top) / (height + vh)) 0 1) ∧
    (0 ≤ progressWidth top height vh ∧ progressWidth top height vh ≤ 100) := by
  have hrange : ∀ v : ℚ, 0 ≤ clamp v 0 1 ∧ clamp v 0 1 ≤ 1 := by
    intro v
    unfold clamp
    exact ⟨le_max_left _ _, max_le (by norm_num) (min_le_left _ _)⟩
  have hmono : ∀ u v : ℚ, u ≤ v → clamp u 0 1 ≤ clamp v 0 1 := by
    intro u v huv
    unfold clamp
    exact max_le_max le_rfl (min_le_min le_rfl huv)
  refine ⟨fractions_agree top height vh, hrange _, ?_, ?_, ?_, ?_⟩
  · intro h
    have hq : (vh - top) / (height + vh) ≤ 0 :=
      div_nonpos_of_nonpos_of_nonneg (by linarith) hpos.le
    unfold clamp
    rw [min_eq_right (by linarith), max_eq_left hq]
  · intro h
    have hq : 1 ≤ (vh - top) / (height + vh) := by
      rw [le_div_iff₀ hpos]
      linarith
    unfold clamp
    rw [min_eq_left hq, max_eq_right (by norm_num)]
  · intro h
    apply hmono
    exact div_le_div_of_nonneg_right (by linarith) hpos.le
  · unfold progressWidth
    rw [(fractions_agree top height vh).1]
    have := hrange ((vh - top) / (height + vh))
    constructor <;> nlinarith [this.1, this.2]

/-- C16 on a timeline of height 900 whose top is 150 below the top of a 600 high
viewport, compared with the same timeline 250 further down. -/
theorem scroll_progress_witness :
    (0 : ℚ) < 900 + 600 ∧
    (updateFrac 150 900 600 = clamp ((600 - 150) / (900 + 600)) 0 1 ∧
     updateLine 150 900 600 = clamp ((600 - 150) / (900 + 600)) 0 1 ∧
     quotePct 150 900 600 = clamp ((600 - 150) / (900 + 600)) 0 1) ∧
    (0 ≤ clamp (((600 : ℚ) - 150) / (900 + 600)) 0 1 ∧
     clamp (((600 : ℚ) - 150) / (900 + 600)) 0 1 ≤ 1) ∧
    ((600 : ℚ) ≤ 150 → clamp (((600 : ℚ) - 150) / (900 + 600)) 0 1 = 0) ∧
    ((150 : ℚ) ≤ -900 → clamp (((600 : ℚ) - 150) / (900 + 600)) 0 1 = 1) ∧
    ((150 : ℚ) ≤ 400 → clamp (((600 : ℚ) - 400) / (900 + 600)) 0 1
        ≤ clamp (((600 : ℚ) - 150) / (900 + 600)) 0 1) ∧
    (0 ≤ progressWidth 150 900 600 ∧ progressWidth 150 900 600 ≤ 100) :=
  ⟨by norm_num, scroll_progress 150 400 900 600 (by norm_num)⟩

/-! ## Drawing: properties -/

theorem loop_ops (M : Trig) (env : FrameEnv) (s : Anim) (now : ℚ) (hp : s.paused = false) :
    (loop M env s now).2.ops
      = [CanvasOp.clearRect 0 0 s.vw s.vh, CanvasOp.fillGradientRect 0 0 s.vw s.vh]
        ++ ((loop M env s now).1.particles.map
              (drawParticle s.vw s.vh (frameNx s) (frameNy s)
                (orZero env.scrollX env.pageXOffset) (orZero env.scrollY env.pageYOffset))).flatten
        ++ connectLines (loop M env s now).1.particles
              (smooth s.pointer.x s.pointer.tx) (smooth s.pointer.y s.pointer.ty)
              (s.vw / 2) (s.vh / 2)
              (orZero env.scrollX env.pageXOffset) (orZero env.scrollY env.pageYOffset) env := by
  simp [loop, hp, frameNx, frameNy]

theorem drawParticle_window (vw vh nx ny sX sY : ℚ) (q : Particle) :
    drawParticle vw vh nx ny sX sY q
      = if -140 ≤ q.x - sX ∧ q.x - sX ≤ vw + 140 ∧ -140 ≤ q.y - sY ∧ q.y - sY ≤ vh + 140 then
          [ CanvasOp.glow (dotCentre nx ny sX sY q).1 (dotCentre nx ny sX sY q).2
              (max 1 q.size * 6) (hexToRgba q.color (clamp (q.alpha + 9 / 50) (3 / 50) 1)),
            CanvasOp.dot (dotCentre nx ny sX sY q).1 (dotCentre nx ny sX sY q).2
              (max (3 / 5) (max 1 q.size * (9 / 20)))
              (hexToRgba "#ffffff" (clamp (q.alpha + 9 / 50) (3 / 50) 1)) ]
        else [] := by
  unfold drawParticle onScreen
  by_cases h : -140 ≤ q.x - sX ∧ q.x - sX ≤ vw + 140 ∧ -140 ≤ q.y - sY ∧ q.y - sY ≤ vh + 140
  · obtain ⟨h1, h2, h3, h4⟩ := h
    simp [h1, h2, h3, h4, not_lt.mpr h1, not_lt.mpr h2, not_lt.mpr h3, not_lt.mpr h4]
  · rw [if_neg h]
    have h' : q.x - sX < -140 ∨ vw + 140 < q.x - sX ∨ q.y - sY < -140 ∨ vh + 140 < q.y - sY := by
      by_contra hc
      push_neg at hc
      exact h ⟨hc.1, hc.2.1, hc.2.2.1, hc.2.2.2⟩
    rcases h' with h' | h' | h' | h' <;> simp [h']

/-- C12. In an unpaused frame every particle is moved and wrapped, and the arcs issued
are, particle by particle in array order, a glow and a dot at the particle's centre if
its screen position `(sx, sy) = (x - scrollX, y - scrollY)` after the update satisfies
`-140 <= sx <= vw + 140` and `-140 <= sy <= vh + 140`, and nothing otherwise. -/
theorem loop_draws_window (M : Trig) (env : FrameEnv) (s : Anim) (now : ℚ)
    (hp : s.paused = false) :
    (loop M env s now).1.particles
      = s.particles.map (stepParticle M s.docW s.docH (frameDt now s.lastTs)) ∧
    (loop M env s now).2.ops
      = [CanvasOp.clearRect 0 0 s.vw s.vh, CanvasOp.fillGradientRect 0 0 s.vw s.vh]
        ++ ((loop M env s now).1.particles.map (fun q =>
              if -140 ≤ q.x - orZero env.scrollX env.pageXOffset ∧
                  q.x - orZero env.scrollX env.pageXOffset ≤ s.vw + 140 ∧
                  -140 ≤ q.y - orZero env.scrollY env.pageYOffset ∧
                  q.y - orZero env.scrollY env.pageYOffset ≤ s.vh + 140 then
                [ CanvasOp.glow
                    (q.x - orZero env.scrollX env.pageXOffset + -frameNx s * (28 * q.depth))
                    (q.y - orZero env.scrollY env.pageYOffset
                      + -frameNy s * (28 * q.depth) * (3 / 5))
                    (max 1 q.size * 6)
                    (hexToRgba q.color (clamp (q.alpha + 9 / 50) (3 / 50) 1)),
                  CanvasOp.dot
                    (q.x - orZero env.scrollX env.pageXOffset + -frameNx s * (28 * q.depth))
                    (q.y - orZero env.scrollY env.pageYOffset
                      + -frameNy s * (28 * q.depth) * (3 / 5))
                    (max (3 / 5) (max 1 q.size * (9 / 20)))
                    (hexToRgba "#ffffff" (clamp (q.alpha + 9 / 50) (3 / 50) 1)) ]
              else [])).flatten
        ++ connectLines (loop M env s now).1.particles
              (smooth s.pointer.x s.pointer.tx) (smooth s.pointer.y s.pointer.ty)
              (s.vw / 2) (s.vh / 2)
              (orZero env.scrollX env.pageXOffset) (orZero env.scrollY env.pageYOffset) env := by
  refine ⟨loop_particles M env s now hp, ?_⟩
  rw [loop_ops M env s now hp]
  congr 3
  apply List.map_congr_left
  intro q _
  rw [drawParticle_window]
  rfl

/-- C12 on the sample frame, whose second particle is wrapped to the right edge of the
document, outside the window. -/
theorem loop_draws_window_witness :
    sampleAnim.paused = false ∧
    (loop trigSeries sampleEnv sampleAnim 16).1.particles
      = sampleAnim.particles.map
          (stepParticle trigSeries sampleAnim.docW sampleAnim.docH
            (frameDt 16 sampleAnim.lastTs)) :=
  ⟨rfl, (loop_draws_window trigSeries sampleEnv sampleAnim 16 rfl).1⟩

/-! ## Parallax: properties -/

theorem smooth_between (cur : Option ℚ) (t w : ℚ)
    (hcur : ∀ v ∈ cur, 0 ≤ v ∧ v ≤ w) (ht0 : 0 ≤ t) (htw : t ≤ w) :
    0 ≤ smooth cur t ∧ smooth cur t ≤ w := by
  cases cur with
  | none => exact ⟨ht0, htw⟩
  | some v =>
    obtain ⟨h0, h1⟩ := hcur v rfl
    simp only [smooth]
    constructor <;> linarith

theorem pointerInside_iff (s : Anim) :
    pointerInside s ↔ ∃ x y, s.pointer.x = some x ∧ s.pointer.y = some y ∧
      0 ≤ x ∧ x ≤ s.vw ∧ 0 ≤ y ∧ y ≤ s.vh := by
  unfold pointerInside
  cases hx : s.pointer.x <;> cases hy : s.pointer.y <;> simp

theorem stepParticle_depth (M : Trig) (docW docH dt : ℚ) (p : Particle) :
    (stepParticle M docW docH dt p).depth = p.depth := rfl

/-- One action keeps the viewport size, the pointer and its target inside the
viewport, and the depth range of the particles. -/
theorem act_keeps_inside (M : Trig) (s : Anim) (a : Action)
    (hin : pointerInside s) (ht : inViewport s (s.pointer.tx, s.pointer.ty))
    (ha : ∀ e, a = Action.move e → inViewport s e.target)
    (hd : ∀ p ∈ s.particles, 0 ≤ p.depth ∧ p.depth ≤ 1) :
    (act M s a).vw = s.vw ∧ (act M s a).vh = s.vh ∧ pointerInside (act M s a) ∧
    inViewport (act M s a) ((act M s a).pointer.tx, (act M s a).pointer.ty) ∧
    ∀ p ∈ (act M s a).particles, 0 ≤ p.depth ∧ p.depth ≤ 1 := by
  obtain ⟨x, y, hx, hy, hx0, hx1, hy0, hy1⟩ := (pointerInside_iff s).mp hin
  cases a with
  | move e =>
    refine ⟨rfl, rfl, ?_, ?_, hd⟩
    · exact (pointerInside_iff _).mpr ⟨x, y, hx, hy, hx0, hx1, hy0, hy1⟩
    · exact ha e rfl
  | frame env now =>
    cases hp : s.paused
    · have hs : act M s (Action.frame env now)
          = { s with lastTs := now,
                     pointer := { s.pointer with x := some (smooth s.pointer.x s.pointer.tx),
                                                 y := some (smooth s.pointer.y s.pointer.ty) },
                     particles := s.particles.map
                       (stepParticle M s.docW s.docH (frameDt now s.lastTs)) } := by
        simp [act, loop, hp]
      rw [hs]
      obtain ⟨t0, t1, t2, t3⟩ := ht
      have bx := smooth_between s.pointer.x s.pointer.tx s.vw
        (by rw [hx]; intro v hv; cases hv; exact ⟨hx0, hx1⟩) t0 t1
      have bY := smooth_between s.pointer.y s.pointer.ty s.vh
        (by rw [hy]; intro v hv; cases hv; exact ⟨hy0, hy1⟩) t2 t3
      refine ⟨rfl, rfl, ?_, ⟨t0, t1, t2, t3⟩, ?_⟩
      · exact (pointerInside_iff _).mpr ⟨_, _, rfl, rfl, bx.1, bx.2, bY.1, bY.2⟩
      · intro p hpm
        simp only [List.mem_map] at hpm
        obtain ⟨q, hq, rfl⟩ := hpm
        rw [stepParticle_depth]
        exact hd q hq
    · have hs : act M s (Action.frame env now) = s := by
        simp [act, loop, hp]
      rw [hs]
      exact ⟨rfl, rfl, hin, ht, hd⟩

/-- A run keeps what one action keeps. -/
theorem run_keeps_inside (M : Trig) (acts : List Action) :
    ∀ s : Anim, pointerInside s → inViewport s (s.pointer.tx, s.pointer.ty) →
      (∀ e, Action.move e ∈ acts → inViewport s e.target) →
      (∀ p ∈ s.particles, 0 ≤ p.depth ∧ p.depth ≤ 1) →
      (run M s acts).vw = s.vw ∧ (run M s acts).vh = s.vh ∧ pointerInside (run M s acts) ∧
      inViewport (run M s acts) ((run M s acts).pointer.tx, (run M s acts).pointer.ty) ∧
      ∀ p ∈ (run M s acts).particles, 0 ≤ p.depth ∧ p.depth ≤ 1 := by
  induction acts with
  | nil =>
    intro s hin ht _ hd
    exact ⟨rfl, rfl, hin, ht, hd⟩
  | cons a rest ih =>
    intro s hin ht hm hd
    obtain ⟨hw, hh, hin1, ht1, hd1⟩ := act_keeps_inside M s a hin ht
      (fun e he => hm e (by rw [he]; exact List.mem_cons_self _ _)) hd
    have hm1 : ∀ e, Action.move e ∈ rest → inViewport (act M s a) e.target := by
      intro e he
      have := hm e (List.mem_cons_of_mem _ he)
      unfold inViewport at this ⊢
      rw [hw, hh]
      exact this
    obtain ⟨hw2, hh2, hin2, ht2, hd2⟩ := ih (act M s a) hin1 ht1 hm1 hd1
    have hrun : run M s (a :: rest) = run M (act M s a) rest := rfl
    rw [hrun]
    exact ⟨hw2.trans hw, hh2.trans hh, hin2, ht2, hd2⟩

theorem normalised_le_one (v w : ℚ) (hw : 0 < w) (h0 : 0 ≤ v) (h1 : v ≤ w) :
    |(v - w / 2) / (w / 2)| ≤ 1 := by
  have hhalf : 0 < w / 2 := by linarith
  rw [abs_le]
  constructor
  · rw [le_div_iff₀ hhalf]
    linarith
  · rw [div_le_iff₀ hhalf]
    linarith

/-- C17. If the smoothed pointer and its target start inside the viewport
`[0, vw] × [0, vh]` with `vw, vh >= 320`, every later pointer target lies inside it and
the particles have depth in `[0, 1]` (as `initParticles` creates them), then after any
sequence of pointer events and loop steps the smoothed pointer is still inside, the
`nx` and `ny` of the next frame satisfy `|nx| <= 1` and `|ny| <= 1`, and for every
particle of that frame the parallax offset satisfies `|ox| <= 28 * depth <= 28` and
`|oy| <= 16.8 * depth <= 16.8`. -/
theorem parallax_bounded (M : Trig) (s : Anim) (acts : List Action) (env : FrameEnv) (now : ℚ)
    (hvw : 320 ≤ s.vw) (hvh : 320 ≤ s.vh)
    (hstart : pointerInside s) (htarget : inViewport s (s.pointer.tx, s.pointer.ty))
    (hmoves : ∀ e, Action.move e ∈ acts → inViewport s e.target)
    (hdepth : ∀ p ∈ s.particles, 0 ≤ p.depth ∧ p.depth ≤ 1) :
    pointerInside (run M s acts) ∧
    |frameNx (run M s acts)| ≤ 1 ∧ |frameNy (run M s acts)| ≤ 1 ∧
    ∀ q ∈ (loop M env (run M s acts) now).1.particles,
      |(dotCentre (frameNx (run M s acts)) (frameNy (run M s acts))
            (orZero env.scrollX env.pageXOffset) (orZero env.scrollY env.pageYOffset) q).1
          - (q.x - orZero env.scrollX env.pageXOffset)| ≤ 28 * q.depth ∧
      28 * q.depth ≤ 28 ∧
      |(dotCentre (frameNx (run M s acts)) (frameNy (run M s acts))
            (orZero env.scrollX env.pageXOffset) (orZero env.scrollY env.pageYOffset) q).2
          - (q.y - orZero env.scrollY env.pageYOffset)| ≤ 84 / 5 * q.depth ∧
      84 / 5 * q.depth ≤ 84 / 5 := by
  obtain ⟨hw, hh, hin, ht, hd⟩ := run_keeps_inside M acts s hstart htarget hmoves hdepth
  obtain ⟨x, y, hx, hy, hx0, hx1, hy0, hy1⟩ := (pointerInside_iff _).mp hin
  obtain ⟨t0, t1, t2, t3⟩ := ht
  have bx := smooth_between (run M s acts).pointer.x (run M s acts).pointer.tx (run M s acts).vw
    (by rw [hx]; intro v hv; cases hv; exact ⟨hx0, hx1⟩) t0 t1
  have bY := smooth_between (run M s acts).pointer.y (run M s acts).pointer.ty (run M s acts).vh
    (by rw [hy]; intro v hv; cases hv; exact ⟨hy0, hy1⟩) t2 t3
  have hnx : |frameNx (run M s acts)| ≤ 1 :=
    normalised_le_one _ _ (by rw [hw]; linarith) bx.1 bx.2
  have hny : |frameNy (run M s acts)| ≤ 1 :=
    normalised_le_one _ _ (by rw [hh]; linarith) bY.1 bY.2
  refine ⟨hin, hnx, hny, ?_⟩
  intro q hq
  have hqd : 0 ≤ q.depth ∧ q.depth ≤ 1 :=
    (act_keeps_inside M (run M s acts) (Action.frame env now) hin ⟨t0, t1, t2, t3⟩
      (fun e he => by cases he) hd).2.2.2.2 q hq
  have hox : (dotCentre (frameNx (run M s acts)) (frameNy (run M s acts))
        (orZero env.scrollX env.pageXOffset) (orZero env.scrollY env.pageYOffset) q).1
      - (q.x - orZero env.scrollX env.pageXOffset)
      = -(frameNx (run M s acts) * (28 * q.depth)) := by
    simp only [dotCentre]
    ring
  have hoy : (dotCentre (frameNx (run M s acts)) (frameNy (run M s acts))
        (orZero env.scrollX env.pageXOffset) (orZero env.scrollY env.pageYOffset) q).2
      - (q.y - orZero env.scrollY env.pageYOffset)
      = -(frameNy (run M s acts) * (84 / 5 * q.depth)) := by
    simp only [dotCentre]
    ring
  have hbound : ∀ n c : ℚ, |n| ≤ 1 → 0 ≤ c → |-(n * c)| ≤ c := by
    intro n c hn hc
    rw [abs_neg, abs_mul, abs_of_nonneg hc]
    exact mul_le_of_le_one_left hc hn
  rw [hox, hoy]
  exact ⟨hbound _ _ hnx (by linarith [hqd.1]), by linarith [hqd.2],
    hbound _ _ hny (by linarith [hqd.1]), by linarith [hqd.2]⟩

/-- The particles made by `initParticles` from random numbers in `[0, 1)` have a depth
in `[0, 1]`. -/
theorem newParticle_depth (M : Trig) (docW docH : ℚ) (r : ℕ → ℚ)
    (h0 : 0 ≤ r 0) (h1 : r 0 < 1) :
    0 ≤ (newParticle M docW docH r).depth ∧ (newParticle M docW docH r).depth ≤ 1 := by
  have hlo : (0 : ℤ) ≤ ⌊r 0 * 4⌋ := Int.floor_nonneg.mpr (by linarith)
  have hhi : ⌊r 0 * 4⌋ < (4 : ℤ) := Int.floor_lt.mpr (by push_cast; linarith)
  have hlo' : (0 : ℚ) ≤ (⌊r 0 * 4⌋ : ℚ) := by exact_mod_cast hlo
  have hhi' : (⌊r 0 * 4⌋ : ℚ) ≤ 3 := by
    have : ⌊r 0 * 4⌋ ≤ (3 : ℤ) := by omega
    exact_mod_cast this
  simp only [newParticle]
  constructor
  · apply div_nonneg <;> linarith
  · rw [div_le_iff₀ (by norm_num : (0 : ℚ) < 4)]
    linarith

/-- The state `initBackgroundCanvas` starts the loop from satisfies the hypotheses of
C17: the pointer and its target are at the centre of the viewport and every particle
has a depth in `[0, 1]`. -/
theorem initBackgroundCanvas_inside (M : Trig) (w : Window) (rnd : ℕ → ℚ)
    (hr : ∀ k, 0 ≤ rnd k ∧ rnd k < 1) :
    ∃ a, (initBackgroundCanvas M w CanvasContext.ok rnd).toOption.map (fun b => b.anim)
        = some (some a) ∧
      320 ≤ a.vw ∧ 320 ≤ a.vh ∧ pointerInside a ∧ inViewport a (a.pointer.tx, a.pointer.ty) ∧
      ∀ p ∈ a.particles, 0 ≤ p.depth ∧ p.depth ≤ 1 := by
  have hvw : (320 : ℚ) ≤ max 320 w.innerWidth := le_max_left _ _
  have hvh : (320 : ℚ) ≤ max 320 w.innerHeight := le_max_left _ _
  refine ⟨_, rfl, hvw, hvh, ?_, ?_, ?_⟩
  · refine (pointerInside_iff _).mpr ⟨_, _, rfl, rfl, ?_, ?_, ?_, ?_⟩
    · show (0 : ℚ) ≤ max 320 w.innerWidth / 2
      linarith
    · show max 320 w.innerWidth / 2 ≤ max 320 w.innerWidth
      linarith
    · show (0 : ℚ) ≤ max 320 w.innerHeight / 2
      linarith
    · show max 320 w.innerHeight / 2 ≤ max 320 w.innerHeight
      linarith
  · refine ⟨?_, ?_, ?_, ?_⟩
    · show (0 : ℚ) ≤ max 320 w.innerWidth / 2
      linarith
    · show max 320 w.innerWidth / 2 ≤ max 320 w.innerWidth
      linarith
    · show (0 : ℚ) ≤ max 320 w.innerHeight / 2
      linarith
    · show max 320 w.innerHeight / 2 ≤ max 320 w.innerHeight
      linarith
  · intro p hp
    simp only [initParticles, List.mem_map] at hp
    obtain ⟨i, _, rfl⟩ := hp
    exact newParticle_depth M _ _ _ (hr _).1 (hr _).2

/-- C17 on the sample variables: the pointer is sent to the top right corner of the
viewport and a frame is run. -/
theorem parallax_bounded_witness :
    (320 ≤ sampleAnim.vw ∧ 320 ≤ sampleAnim.vh ∧ pointerInside sampleAnim) ∧
    (pointerInside (run trigSeries sampleAnim
        [Action.move ⟨none, 800, 0⟩, Action.frame sampleEnv 16]) ∧
     |frameNx (run trigSeries sampleAnim
        [Action.move ⟨none, 800, 0⟩, Action.frame sampleEnv 16])| ≤ 1 ∧
     |frameNy (run trigSeries sampleAnim
        [Action.move ⟨none, 800, 0⟩, Action.frame sampleEnv 16])| ≤ 1 ∧
     ∀ q ∈ (loop trigSeries sampleEnv (run trigSeries sampleAnim
              [Action.move ⟨none, 800, 0⟩, Action.frame sampleEnv 16]) 32).1.particles,
       |(dotCentre
            (frameNx (run trigSeries sampleAnim
              [Action.move ⟨none, 800, 0⟩, Action.frame sampleEnv 16]))
            (frameNy (run trigSeries sampleAnim
              [Action.move ⟨none, 800, 0⟩, Action.frame sampleEnv 16]))
            (orZero sampleEnv.scrollX sampleEnv.pageXOffset)
            (orZero sampleEnv.scrollY sampleEnv.pageYOffset) q).1
          - (q.x - orZero sampleEnv.scrollX sampleEnv.pageXOffset)| ≤ 28 * q.depth ∧
       28 * q.depth ≤ 28 ∧
       |(dotCentre
            (frameNx (run trigSeries sampleAnim
              [Action.move ⟨none, 800, 0⟩, Action.frame sampleEnv 16]))
            (frameNy (run trigSeries sampleAnim
              [Action.move ⟨none, 800, 0⟩, Action.frame sampleEnv 16]))
            (orZero sampleEnv.scrollX sampleEnv.pageXOffset)
            (orZero sampleEnv.scrollY sampleEnv.pageYOffset) q).2
          - (q.y - orZero sampleEnv.scrollY sampleEnv.pageYOffset)| ≤ 84 / 5 * q.depth ∧
       84 / 5 * q.depth ≤ 84 / 5) :=
  have hin : pointerInside sampleAnim :=
    (pointerInside_iff _).mpr ⟨400, 300, rfl, rfl, by norm_num [sampleAnim],
      by norm_num [sampleAnim], by norm_num [sampleAnim], by norm_num [sampleAnim]⟩
  ⟨⟨by norm_num [sampleAnim], by norm_num [sampleAnim], hin⟩,
    parallax_bounded trigSeries sampleAnim
      [Action.move ⟨none, 800, 0⟩, Action.frame sampleEnv 16] sampleEnv 32
      (by norm_num [sampleAnim]) (by norm_num [sampleAnim]) hin
      (by norm_num [inViewport, sampleAnim])
      (by
        intro e he
        simp only [List.mem_cons, Action.move.injEq, List.mem_singleton, List.mem_nil_iff,
          or_false] at he
        rcases he with rfl | he
        · norm_num [inViewport, PointerEvt.target, sampleAnim]
        · cases he)
      (by
        intro p hp
        simp only [sampleAnim, List.mem_cons, List.mem_singleton, List.mem_nil_iff,
          or_false] at hp
        rcases hp with rfl | rfl <;> norm_num [sampleParticle, strayParticle])⟩

/-! ## Connecting lines: properties -/

/-- The canvas calls of the frame run from `offsetAnim` with `pairEnv`. -/
theorem offset_frame_ops :
    (loop trigSeries pairEnv offsetAnim 16).2.ops
      = [ CanvasOp.clearRect 0 0 800 600, CanvasOp.fillGradientRect 0 0 800 600,
          CanvasOp.glow (23259 / 250) 100 24 ⟨"#7BE6DD", 19 / 50⟩,
          CanvasOp.dot (23259 / 250) 100 (9 / 5) ⟨"#ffffff", 19 / 50⟩,
          CanvasOp.glow (93021 / 500) 100 24 ⟨"#F6A15C", 19 / 50⟩,
          CanvasOp.dot (93021 / 500) 100 (9 / 5) ⟨"#ffffff", 19 / 50⟩,
          CanvasOp.globalAlpha (3 / 50), CanvasOp.lineWidth (3 / 5),
          CanvasOp.line (24259 / 250) 100 (97021 / 500) 100 ⟨"#7BE6DD", 9 / 200⟩,
          CanvasOp.line (24259 / 250) 100 (97021 / 500) 100 ⟨"#7BE6DD", 9 / 200⟩,
          CanvasOp.line (24259 / 250) 100 (97021 / 500) 100 ⟨"#7BE6DD", 9 / 200⟩,
          CanvasOp.line (24259 / 250) 100 (97021 / 500) 100 ⟨"#7BE6DD", 9 / 200⟩,
          CanvasOp.line (24259 / 250) 100 (97021 / 500) 100 ⟨"#7BE6DD", 9 / 200⟩,
          CanvasOp.line (24259 / 250) 100 (97021 / 500) 100 ⟨"#7BE6DD", 9 / 200⟩,
          CanvasOp.globalAlpha 1 ] := by
  have hr : List.range 6 = [0, 1, 2, 3, 4, 5] := by decide
  norm_num [loop, offsetAnim, pairEnv, sampleEnv, stepParticle, wrapParticle, moveParticle,
    wrapCoord, frameDt, trigSeries, drawParticle, onScreen, dotCentre, connectLines,
    connectLine, pick, hr, smooth, orZero, truthy, hexToRgba, clamp]

/-- C18, as stated, fails: with the pointer at the right edge of the viewport
(`nx = 1`) the frame strokes a line from `x = 24259/250` to `x = 97021/500`, while the
only dots drawn in that frame, those of the same two particles, are centred at
`x = 23259/250` and `x = 93021/500`: the line uses a parallax of `12 * depth`, the
dots one of `28 * depth`. -/
theorem lines_miss_dots_counterexample :
    CanvasOp.line (24259 / 250) 100 (97021 / 500) 100 ⟨"#7BE6DD", 9 / 200⟩
      ∈ (loop trigSeries pairEnv offsetAnim 16).2.ops ∧
    ∀ dx dy r fill, CanvasOp.dot dx dy r fill ∈ (loop trigSeries pairEnv offsetAnim 16).2.ops →
      dx ≠ 24259 / 250 ∧ dx ≠ 97021 / 500 := by
  rw [offset_frame_ops]
  refine ⟨by simp, ?_⟩
  intro dx dy r fill h
  simp only [List.mem_cons, CanvasOp.dot.injEq, List.mem_singleton, reduceCtorEq, false_or,
    or_false, List.mem_nil_iff] at h
  rcases h with ⟨rfl, _⟩ | ⟨rfl, _⟩ <;> constructor <;> norm_num

theorem pick_mem (ps : List Particle) (r : ℚ) (a : Particle) (h : pick ps r = some a) :
    a ∈ ps := by
  unfold pick at h
  simp only at h
  split at h
  · cases h
  · exact List.get?_mem h

/-- A line issued by one iteration of the connecting-line loop joins the line points of
two particles of the array whose layers differ by at most 1 and whose line points are
less than `sqrt 30000` apart. -/
theorem connectLine_line (ps : List Particle) (px py cx cy sX sY : ℚ) (rnd : ℕ → ℚ) (k : ℕ)
    (ax ay bx bY : ℚ) (stroke : Rgba)
    (h : CanvasOp.line ax ay bx bY stroke ∈ connectLine ps px py cx cy sX sY rnd k) :
    ∃ a ∈ ps, ∃ b ∈ ps, |a.layer - b.layer| ≤ 1 ∧
      ax = a.x - ((px - cx) / cx) * (a.depth * 12) - sX ∧
      ay = a.y - ((py - cy) / cy) * (a.depth * 8) - sY ∧
      bx = b.x - ((px - cx) / cx) * (b.depth * 12) - sX ∧
      bY = b.y - ((py - cy) / cy) * (b.depth * 8) - sY ∧
      (ax - bx) * (ax - bx) + (ay - bY) * (ay - bY) < 30000 := by
  unfold connectLine at h
  split at h
  · rename_i a b ha hb
    by_cases hl : |a.layer - b.layer| > 1
    · simp [hl] at h
    · rw [if_neg hl] at h
      simp only at h
      split at h
      · rename_i hdist
        simp only [List.mem_singleton, CanvasOp.line.injEq] at h
        obtain ⟨h1, h2, h3, h4, _⟩ := h
        refine ⟨a, pick_mem ps _ a ha, b, pick_mem ps _ b hb, not_lt.mp hl, h1, h2, h3, h4, ?_⟩
        rw [h1, h2, h3, h4]
        exact hdist
      · simp at h
  · simp at h

/-- C18, amended. Every line stroked in a frame joins, for two particles `a` and `b` of
the array whose layers differ by at most 1, the points
`(x - nx * 12 * depth - scrollX, y - ny * 8 * depth - scrollY)` of `a` and of `b`, and the
squared distance between these two points is below 30000. These points carry a
parallax of `12 * depth` and `8 * depth`, not the `28 * depth` and `16.8 * depth` of the
dot centres. -/
theorem lines_join_line_points (M : Trig) (env : FrameEnv) (s : Anim) (now : ℚ)
    (ax ay bx bY : ℚ) (stroke : Rgba)
    (h : CanvasOp.line ax ay bx bY stroke ∈ (loop M env s now).2.ops) :
    ∃ a ∈ (loop M env s now).1.particles, ∃ b ∈ (loop M env s now).1.particles,
      |a.layer - b.layer| ≤ 1 ∧
      ax = a.x - frameNx s * (a.depth * 12) - orZero env.scrollX env.pageXOffset ∧
      ay = a.y - frameNy s * (a.depth * 8) - orZero env.scrollY env.pageYOffset ∧
      bx = b.x - frameNx s * (b.depth * 12) - orZero env.scrollX env.pageXOffset ∧
      bY = b.y - frameNy s * (b.depth * 8) - orZero env.scrollY env.pageYOffset ∧
      (ax - bx) * (ax - bx) + (ay - bY) * (ay - bY) < 30000 := by
  cases hp : s.paused
  · rw [loop_ops M env s now hp] at h
    simp only [List.mem_append, List.mem_cons, List.mem_singleton, reduceCtorEq, false_or,
      List.mem_nil_iff, or_false, List.mem_flatten, List.mem_map] at h
    rcases h with ⟨l, ⟨q, _, rfl⟩, hmem⟩ | hlines
    · rw [drawParticle_window] at hmem
      split at hmem <;> simp at hmem
    · unfold connectLines at hlines
      split at hlines
      · simp at hlines
      · simp only [List.mem_append, List.mem_cons, List.mem_singleton, reduceCtorEq, false_or,
          List.mem_nil_iff, or_false, List.mem_flatten, List.mem_map] at hlines
        obtain ⟨l, ⟨k, _, rfl⟩, hmem⟩ := hlines
        exact connectLine_line _ _ _ _ _ _ _ _ k ax ay bx bY stroke hmem
  · simp [loop, hp] at h

/-- The amended C18 on the frame of the counterexample. -/
theorem lines_join_line_points_witness :
    CanvasOp.line (24259 / 250) 100 (97021 / 500) 100 ⟨"#7BE6DD", 9 / 200⟩
      ∈ (loop trigSeries pairEnv offsetAnim 16).2.ops ∧
    ∃ a ∈ (loop trigSeries pairEnv offsetAnim 16).1.particles,
      ∃ b ∈ (loop trigSeries pairEnv offsetAnim 16).1.particles,
      |a.layer - b.layer| ≤ 1 ∧
      (24259 / 250 : ℚ) = a.x - frameNx offsetAnim * (a.depth * 12)
          - orZero pairEnv.scrollX pairEnv.pageXOffset ∧
      (100 : ℚ) = a.y - frameNy offsetAnim * (a.depth * 8)
          - orZero pairEnv.scrollY pairEnv.pageYOffset ∧
      (97021 / 500 : ℚ) = b.x - frameNx offsetAnim * (b.depth * 12)
          - orZero pairEnv.scrollX pairEnv.pageXOffset ∧
      (100 : ℚ) = b.y - frameNy offsetAnim * (b.depth * 8)
          - orZero pairEnv.scrollY pairEnv.pageYOffset ∧
      ((24259 / 250 : ℚ) - 97021 / 500) * (24259 / 250 - 97021 / 500)
          + ((100 : ℚ) - 100) * (100 - 100) < 30000 :=
  have hmem : CanvasOp.line (24259 / 250) 100 (97021 / 500) 100 ⟨"#7BE6DD", 9 / 200⟩
      ∈ (loop trigSeries pairEnv offsetAnim 16).2.ops := by
    rw [offset_frame_ops]
    simp
  ⟨hmem, lines_join_line_points trigSeries pairEnv offsetAnim 16 _ _ _ _ _ hmem⟩

end Virasat
